import Mathlib

/-!
Verification of the slave instrument-driver repository: a shallow embedding of
the K2400 and B2900 device drivers (their command tables and `Setup` facade
methods) together with a model of the generic command/type-codec layer, which
the repository declares in `slave.driver` and `slave.types` and whose contract
is given by the specification (sections 3, 4.1 and 4.2).

Numeric values of the source language (floats, which are finite decimals at
the wire level) are embedded as `DecNum`: an integer mantissa with a power of
ten denominator.  All string machinery (digit printing and parsing, comma
splitting, lower-casing) is implemented structurally so that every definition
is executable by the kernel.
-/

set_option maxRecDepth 8000

deriving instance DecidableEq for Except

/-! ### Base-10 digit machinery -/

/-- Little-endian base-10 digits of a natural number; `fuel` bounds the
recursion (callers pass `n` itself, which suffices since `n / 10 < n`). -/
def digsAux : Nat → Nat → List Nat
  | 0, _ => []
  | fuel + 1, n => if n = 0 then [] else n % 10 :: digsAux fuel (n / 10)

/-- Little-endian base-10 digits of `n` (empty for `0`). -/
def digs (n : Nat) : List Nat := digsAux n n

/-- Value of a little-endian base-10 digit list. -/
def unL : List Nat → Nat
  | [] => 0
  | d :: ds => d + 10 * unL ds

/-- Digit value to character. -/
def digitChar : Nat → Char
  | 0 => '0' | 1 => '1' | 2 => '2' | 3 => '3' | 4 => '4'
  | 5 => '5' | 6 => '6' | 7 => '7' | 8 => '8' | _ => '9'

/-- Character to digit value. -/
def chVal (c : Char) : Nat := c.toNat - 48

/-- Big-endian character digits of a natural number (empty for `0`). -/
def natChars (n : Nat) : List Char := ((digs n).map digitChar).reverse

/-- Left-pad a character list with zeros to at least `len` characters. -/
def padTo (len : Nat) (cs : List Char) : List Char :=
  List.replicate (len - cs.length) '0' ++ cs

/-- Decimal string of a natural number. -/
def natStr (n : Nat) : String := ⟨padTo 1 (natChars n)⟩

/-- Value of a big-endian character digit list. -/
def charsToNat (cs : List Char) : Nat := unL ((cs.map chVal).reverse)

/-! ### Finite decimal numbers (the embedding of source-language floats) -/

/-- A finite decimal number `m / 10^k`: the exact values that numeric SCPI
tokens denote.  This is the value domain of the modelled `Float` codec. -/
structure DecNum where
  m : Int
  k : Nat
  deriving DecidableEq, Repr

/-- Rational value of a `DecNum`. -/
def DecNum.toRat (d : DecNum) : ℚ := mkRat d.m (10 ^ d.k)

/-- Character rendering of a `DecNum`: sign, integer digits, and — when the
denominator exponent is positive — a point followed by exactly `k` fraction
digits. -/
def printDChars (d : DecNum) : List Char :=
  let cs := padTo (d.k + 1) (natChars d.m.natAbs)
  let ip := cs.take (cs.length - d.k)
  let fp := cs.drop (cs.length - d.k)
  (if d.m < 0 then ['-'] else []) ++ ip ++ (if d.k = 0 then [] else '.' :: fp)

/-- Decimal string of a `DecNum`. -/
def printD (d : DecNum) : String := ⟨printDChars d⟩

/-- Decimal string of an integer (the rendering used by the `Integer` codec). -/
def intStr (n : Int) : String := printD ⟨n, 0⟩

/-! ### Character-level parsing -/

/-- Strip a leading sign; returns whether the number is negated. -/
def parseSign : List Char → Bool × List Char
  | [] => (false, [])
  | c :: rest =>
    if c = '-' then (true, rest)
    else if c = '+' then (false, rest)
    else (false, c :: rest)

/-- Split at the first character satisfying `p`; the matching character is
dropped, and `none` is returned when no character matches. -/
def breakChar (p : Char → Bool) : List Char → List Char × Option (List Char)
  | [] => ([], none)
  | c :: cs =>
    if p c then ([], some cs)
    else
      let r := breakChar p cs
      (c :: r.1, r.2)

/-- Parse an optionally signed run of decimal digits. -/
def parseIntChars (cs : List Char) : Option Int :=
  let (neg, ds) := parseSign cs
  if ds ≠ [] ∧ ds.all Char.isDigit then
    some (if neg then -(charsToNat ds : Int) else (charsToNat ds : Int))
  else none

/-- Shift a `DecNum` by a base-10 exponent. -/
def applyExp (d : DecNum) (e : Int) : DecNum :=
  if 0 ≤ e then
    let en := e.toNat
    if d.k ≤ en then ⟨d.m * (10 : Int) ^ (en - d.k), 0⟩ else ⟨d.m, d.k - en⟩
  else ⟨d.m, d.k + (-e).toNat⟩

/-- Parse numeric text into a `DecNum`: optional sign, integer digits, an
optional point with fraction digits, and an optional base-10 exponent
(tolerated per the specification of the numeric codecs). -/
def parseDecChars (cs : List Char) : Option DecNum :=
  let s1 := parseSign cs
  let neg := s1.1
  let b1 := breakChar (fun c => c = 'e' || c = 'E') s1.2
  let mant := b1.1
  let e? : Option Int :=
    match b1.2 with
    | none => some 0
    | some es => parseIntChars es
  let b2 := breakChar (fun c => c = '.') mant
  let ip := b2.1
  let fp := (b2.2).getD []
  if ip ≠ [] ∧ ip.all Char.isDigit ∧ fp.all Char.isDigit then
    match e? with
    | none => none
    | some e =>
      let m0 : Int := (charsToNat (ip ++ fp) : Int)
      some (applyExp ⟨if neg then -m0 else m0, fp.length⟩ e)
  else none

/-- Parse numeric text of a whole string. -/
def parseDec (s : String) : Option DecNum := parseDecChars s.data

/-! ### String helpers -/

/-- Lower-case an ASCII letter. -/
def lowerChar (c : Char) : Char :=
  if 'A' ≤ c ∧ c ≤ 'Z' then Char.ofNat (c.toNat + 32) else c

/-- Lower-case a string (models `str.lower()`). -/
def lowerStr (s : String) : String := ⟨s.data.map lowerChar⟩

/-- Models `s.lower().startswith(pre)`. -/
def lsw (s pre : String) : Bool := pre.data.isPrefixOf (lowerStr s).data

/-- Split a character list at commas; always returns one more field than the
number of commas. -/
def splitComma : List Char → List (List Char)
  | [] => [[]]
  | c :: rest =>
    match splitComma rest with
    | [] => [[c]]
    | h :: t => if c = ',' then [] :: h :: t else (c :: h) :: t

/-- Join strings with a separator. -/
def joinSep (sep : String) : List String → String
  | [] => ""
  | [x] => x
  | x :: xs => x ++ sep ++ joinSep sep xs

/-! ### The type-codec layer

Modelled from the spec: the module `slave/types.py` is part of this
repository but is not present under the sources; only the device drivers
using it are.  The definitions below follow specification sections 3 and 4.1:
each codec converts between a native value and a SCPI ASCII token,
`Integer`/`Float` carry optional `[min, max]` bounds and fail to encode
out-of-range values with `RangeError`, `Mapping` is a bidirectional dictionary
failing with `UnknownKeyError`, `Boolean` encodes to the two tokens `1`/`0`
and decodes a recognized token set case-insensitively, `Stream` is a
comma-delimited sequence of an inner codec's tokens, and `String` is raw
text. -/

/-- Error kinds of the library (specification section 7). -/
inductive Err where
  | range
  | unknownKey
  | notReadable
  | notWritable
  | value (msg : String)
  deriving DecidableEq, Repr

/-- True for the error the source raises as `ValueError`. -/
def Err.isValue : Err → Bool
  | .value _ => true
  | _ => false

/-- Native atomic values: integers, float literals as written (`ad`), parsed
numeric values (`aq`), booleans and strings. -/
inductive AVal where
  | ai (n : Int)
  | ad (d : DecNum)
  | aq (q : ℚ)
  | ab (b : Bool)
  | as (s : String)
  deriving DecidableEq, Repr

/-- Atomic codecs: `Integer` and `Float` with optional bounds, `Boolean`,
`Mapping` (native key, protocol token) and `String`. -/
inductive ACodec where
  | int (lo hi : Option Int)
  | flt (lo hi : Option ℚ)
  | bool
  | mapping (ps : List (String × String))
  | str
  deriving DecidableEq, Repr

/-- A codec is an atom, a comma-delimited stream of atoms, or a fixed tuple of
atoms (multi-field responses such as `[Integer, Integer]`). -/
inductive Codec where
  | atom (a : ACodec)
  | stream (a : ACodec)
  | tuple (cs : List ACodec)
  deriving DecidableEq, Repr

/-- Native values passed to `write` or returned by `read`. -/
inductive Val where
  | a (v : AVal)
  | l (vs : List AVal)
  deriving DecidableEq, Repr

/-- Optional lower-bound check. -/
def leOpt (lo : Option ℚ) (q : ℚ) : Bool :=
  match lo with
  | none => true
  | some l => decide (l ≤ q)

/-- Optional upper-bound check. -/
def geOpt (hi : Option ℚ) (q : ℚ) : Bool :=
  match hi with
  | none => true
  | some h => decide (q ≤ h)

/-- Bounds check of the `Float` codec. -/
def fltOk (lo hi : Option ℚ) (q : ℚ) : Bool := leOpt lo q && geOpt hi q

/-- Optional integer lower-bound check. -/
def leOptI (lo : Option Int) (n : Int) : Bool :=
  match lo with
  | none => true
  | some l => decide (l ≤ n)

/-- Optional integer upper-bound check. -/
def geOptI (hi : Option Int) (n : Int) : Bool :=
  match hi with
  | none => true
  | some h => decide (n ≤ h)

/-- Bounds check of the `Integer` codec. -/
def intOk (lo hi : Option Int) (n : Int) : Bool := leOptI lo n && geOptI hi n

/-- First-component lookup in a mapping table (native key to token). -/
def lookupFst : List (String × String) → String → Option String
  | [], _ => none
  | p :: ps, s => if p.1 = s then some p.2 else lookupFst ps s

/-- Second-component lookup in a mapping table (token to native key). -/
def lookupSnd : List (String × String) → String → Option String
  | [], _ => none
  | p :: ps, s => if p.2 = s then some p.1 else lookupSnd ps s

/-- Modelled from the spec: `encode(value) -> token_string` of an atomic
codec (specification section 4.1). -/
def encodeAtom : ACodec → AVal → Except Err String
  | .int lo hi, .ai n => if intOk lo hi n then .ok (intStr n) else .error .range
  | .flt lo hi, .ad d =>
    if fltOk lo hi d.toRat then .ok (printD d) else .error .range
  | .bool, .ab b => .ok (if b then "1" else "0")
  | .mapping ps, .as s =>
    match lookupFst ps s with
    | some tok => .ok tok
    | none => .error .unknownKey
  | .str, .as s => .ok s
  | _, _ => .error (.value "unsupported native value for this codec")

/-- Modelled from the spec: `decode(token_string) -> value` of an atomic codec
(specification section 4.1).  Numeric decoding parses numeric text, tolerant
of exponent notation; a bounded numeric codec rejects out-of-range values
(specification section 3). -/
def decodeAtom : ACodec → String → Except Err AVal
  | .int lo hi, s =>
    match parseDec s with
    | none => .error (.value "could not parse numeric text")
    | some d =>
      if d.toRat.den = 1 then
        if intOk lo hi d.toRat.num then .ok (.ai d.toRat.num) else .error .range
      else .error (.value "not an integer")
  | .flt lo hi, s =>
    match parseDec s with
    | none => .error (.value "could not parse numeric text")
    | some d =>
      if fltOk lo hi d.toRat then .ok (.aq d.toRat) else .error .range
  | .bool, s =>
    let t := lowerStr s
    if t = "1" || t = "on" || t = "true" then .ok (.ab true)
    else if t = "0" || t = "off" || t = "false" then .ok (.ab false)
    else .error (.value "unrecognized boolean token")
  | .mapping ps, s =>
    match lookupSnd ps s with
    | some key => .ok (.as key)
    | none => .error .unknownKey
  | .str, s => .ok (.as s)

/-- Decode every field of a list, failing on the first bad field. -/
def exMapM (f : String → Except Err AVal) : List String → Except Err (List AVal)
  | [] => .ok []
  | t :: ts =>
    match f t with
    | .error e => .error e
    | .ok v =>
      match exMapM f ts with
      | .error e => .error e
      | .ok vs => .ok (v :: vs)

/-- Encode every element of a list, failing on the first bad element. -/
def exMapEnc (f : AVal → Except Err String) : List AVal → Except Err (List String)
  | [] => .ok []
  | v :: vs =>
    match f v with
    | .error e => .error e
    | .ok t =>
      match exMapEnc f vs with
      | .error e => .error e
      | .ok ts => .ok (t :: ts)

/-- Modelled from the spec: decoding with a full codec.  A `Stream` decodes
one value per comma-separated field of the response — the number of returned
values is exactly the number of fields (specification section 4.1). -/
def valDecode : Codec → String → Except Err Val
  | .atom a, s => (decodeAtom a s).map .a
  | .stream a, s =>
    (exMapM (decodeAtom a) ((splitComma s.data).map (fun l => (⟨l⟩ : String)))).map .l
  | .tuple cs, s =>
    let ts := (splitComma s.data).map (fun l => (⟨l⟩ : String))
    if ts.length = cs.length then
      (exMapM (fun t => decodeAtom (.str) t) ts).map .l
    else .error (.value "field count mismatch")

/-- Modelled from the spec: encoding with a full codec; a `Stream` joins the
encoded tokens with commas. -/
def valEncode : Codec → Val → Except Err String
  | .atom a, .a v => encodeAtom a v
  | .stream a, .l vs => (exMapEnc (encodeAtom a) vs).map (joinSep ",")
  | .stream a, .a v => encodeAtom a v
  | .tuple _, .l vs => (exMapEnc (encodeAtom .str) vs).map (joinSep ",")
  | _, _ => .error (.value "unsupported native value for this codec")

/-! ### The Command layer

Modelled from the spec: the module `slave/driver.py` (the `Command` class and
the `Driver` attribute interception) is part of this repository but is not
present under the sources.  Per specification sections 3 and 4.2, a `Command`
pairs an optional query template and an optional write template with a codec;
`read` fails with `NotReadableError` when the query template is absent and
otherwise decodes the response text; `write` fails with `NotWritableError`
when the write template is absent and otherwise sends the template with the
encoded value substituted. -/

structure Cmd where
  query : Option String
  write : Option String
  type : Option Codec
  deriving DecidableEq, Repr

/-- The `_command` helper of `k2400.py` and `b2900.py`: templates are
formatted (the callers below pass already-formatted strings), then mode
`r`/`ro` removes the write template and mode `w`/`wo` removes the query
template. -/
def mkCmd (query write : Option String) (type : Option Codec) (mode : String) : Cmd :=
  { query := if mode = "w" ∨ mode = "wo" then none else query
    write := if mode = "r" ∨ mode = "ro" then none else write
    type := type }

/-- Encode a native value with a command's codec. -/
def cmdEncode (c : Cmd) (v : Val) : Except Err String :=
  match c.type with
  | some t => valEncode t v
  | none => .error (.value "command without a codec")

/-- Modelled from the spec: `Command.read`, parameterized by the raw response
text the transport returns for the command's query. -/
def Cmd.read (c : Cmd) (resp : String) : Except Err Val :=
  match c.query with
  | none => .error .notReadable
  | some _ => valDecode (c.type.getD (.atom .str)) resp

/-- Modelled from the spec: `Command.write` produces the message sent to the
transport (write template, a space, and the encoded value). -/
def Cmd.writeMsg (c : Cmd) (v : Val) : Except Err String :=
  match c.write with
  | none => .error .notWritable
  | some hdr => (cmdEncode c v).map (fun data => hdr ++ " " ++ data)

/-! ### Write-effect plumbing for the Setup facades

A `WOut` is the list of messages issued to the transport so far, paired with
the first error raised (writes already issued before an error stay issued —
the transport has no rollback). -/

abbrev WOut := List String × Option Err

/-- Issue one command write (a no-op if an error was already raised). -/
def wcmd (c : Cmd) (v : Val) : WOut → WOut
  | (ws, some e) => (ws, some e)
  | (ws, none) =>
    match c.writeMsg v with
    | .ok msg => (ws ++ [msg], none)
    | .error e => (ws, some e)

/-- Issue a command write only when the optional argument is present (the
`if x is not None` pattern of the Setup methods). -/
def wopt (c : Cmd) (v? : Option Val) (st : WOut) : WOut :=
  match v? with
  | none => st
  | some v => wcmd c v st

/-- Issue a raw message (the `Driver._write` pattern). -/
def wraw (msg : String) : WOut → WOut
  | (ws, some e) => (ws, some e)
  | (ws, none) => (ws ++ [msg], none)

/-! ### K2400 driver command tables (from `src/slave/keithley/k2400.py`)

Channel numbers and sense/source function names are parameters, exactly as in
the constructors; the `{c}`/`{f}`/`{l}` template substitutions of the source
are rendered by string concatenation. -/

/-- Maximum source/measure values (`k2400.py`). -/
def k2400VMax : ℚ := 210

def k2400IMax : ℚ := 10

def k2400RMax : ℚ := 200000000

/-- The `_sense_functions` table (tokens carry embedded quotes). -/
def k2400SenseFunctions : List (String × String) :=
  [("voltage", "\"VOLT:DC\""), ("current", "\"CURR:DC\""), ("resistance", "\"RES\"")]

/-- The `_source_functions` table. -/
def k2400SourceFunctions : List (String × String) :=
  [("voltage", "VOLT"), ("current", "CURR")]

/-- The `_trigger_sources` table. -/
def k2400TriggerSources : List (String × String) :=
  [("immediate", "IMM"), ("tlink", "TLIN")]

/-- The `_arm_sources` table. -/
def k2400ArmSources : List (String × String) :=
  [("immediate", "IMM"), ("tlink", "TLIN"), ("timer", "TIM"), ("manual", "MAN"),
   ("bus", "BUS"), ("nstest", "NST"), ("pstest", "PST"), ("bstest", "BST")]

/-- The `_format_elements` table. -/
def k2400FormatElements : List (String × String) :=
  [("voltage", "VOLT"), ("current", "CURR"), ("resistance", "RES"),
   ("time", "TIME"), ("status", "STAT")]

/-- `Triggering.count` (`:{l}:COUN`, `Integer(1, 2500)`). -/
def k2400TrigCount (l : String) : Cmd :=
  mkCmd (some (":" ++ l ++ ":COUN?")) (some (":" ++ l ++ ":COUN"))
    (some (.atom (.int (some 1) (some 2500)))) "rw"

/-- `Triggering.source` (`:{l}:SOUR`, trigger or arm source mapping). -/
def k2400TrigSource (l : String) : Cmd :=
  mkCmd (some (":" ++ l ++ ":SOUR?")) (some (":" ++ l ++ ":SOUR"))
    (some (.atom (.mapping (if l = "TRIG" then k2400TriggerSources else k2400ArmSources)))) "rw"

/-- `Triggering.timer` (ARM layer only, `Float(0.001, 99999.99)`). -/
def k2400TrigTimer (l : String) : Cmd :=
  mkCmd (some (":" ++ l ++ ":TIM?")) (some (":" ++ l ++ ":TIM"))
    (some (.atom (.flt (some (mkRat 1 1000)) (some (mkRat 9999999 100))))) "rw"

/-- `Triggering.delay` (TRIG layer only, `Float(0, 999.9999)`). -/
def k2400TrigDelay (l : String) : Cmd :=
  mkCmd (some (":" ++ l ++ ":DEL?")) (some (":" ++ l ++ ":DEL"))
    (some (.atom (.flt (some 0) (some (mkRat 9999999 10000))))) "rw"

/-- Commands built by the K2400 `Triggering` constructor. -/
def k2400TriggeringCmds (l : String) : List Cmd :=
  [k2400TrigCount l, k2400TrigSource l]
    ++ (if l = "ARM" then [k2400TrigTimer l] else [])
    ++ (if l = "TRIG" then [k2400TrigDelay l] else [])

/-- `Sense.remote_sense` / `Sense.four_wire` (`:SYST:RSEN`). -/
def k2400SenseRemote : Cmd :=
  mkCmd (some "SYST:RSEN?") (some ":SYST:RSEN") (some (.atom .bool)) "rw"

/-- The write-only command built by `Sense.enable`. -/
def k2400SenseEnableCmd (ch : Nat) : Cmd :=
  ⟨none, some (":SENS" ++ natStr ch ++ ":FUNC:ON"),
   some (.atom (.mapping k2400SenseFunctions))⟩

/-- The write-only command built by `Sense.disable`. -/
def k2400SenseDisableCmd (ch : Nat) : Cmd :=
  ⟨none, some (":SENS" ++ natStr ch ++ ":FUNC:OFF"),
   some (.atom (.mapping k2400SenseFunctions))⟩

/-- The write-only command built by the `Sense.functions` setter. -/
def k2400SenseFunctionsCmd (ch : Nat) : Cmd :=
  ⟨none, some (":SENS" ++ natStr ch ++ ":FUNC"),
   some (.stream (.mapping k2400SenseFunctions))⟩

/-- The write-only off command built by the `Sense.functions` setter. -/
def k2400SenseFunctionsOffCmd (ch : Nat) : Cmd :=
  ⟨none, some (":SENS" ++ natStr ch ++ ":FUNC:OFF"),
   some (.stream (.mapping k2400SenseFunctions))⟩

/-- Commands built by the K2400 `Sense` constructor (child `SubSense` nodes
are listed separately). -/
def k2400SenseCmds : List Cmd := [k2400SenseRemote]

/-- `SubSense.nplc` (`Float(0.01, 10)`). -/
def k2400SubSenseNplc (ch : Nat) (f : String) : Cmd :=
  mkCmd (some (":SENS" ++ natStr ch ++ ":" ++ f ++ ":NPLC?"))
    (some (":SENS" ++ natStr ch ++ ":" ++ f ++ ":NPLC"))
    (some (.atom (.flt (some (mkRat 1 100)) (some 10)))) "rw"

/-- `SubSense.auto_range` (query `RANG:AUTO?`, write `RANGE:AUTO`). -/
def k2400SubSenseAutoRange (ch : Nat) (f : String) : Cmd :=
  mkCmd (some (":SENS" ++ natStr ch ++ ":" ++ f ++ ":RANG:AUTO?"))
    (some (":SENS" ++ natStr ch ++ ":" ++ f ++ ":RANGE:AUTO"))
    (some (.atom .bool)) "rw"

/-- `SubSense.range` (`Float(0, ulim)`). -/
def k2400SubSenseRange (ch : Nat) (f : String) (u : ℚ) : Cmd :=
  mkCmd (some (":SENS" ++ natStr ch ++ ":" ++ f ++ ":RANG?"))
    (some (":SENS" ++ natStr ch ++ ":" ++ f ++ ":RANG"))
    (some (.atom (.flt (some 0) (some u)))) "rw"

/-- `SubSense.compliance` (VOLT/CURR only, `Float(0, ulim)`). -/
def k2400SubSenseCompliance (ch : Nat) (f : String) (u : ℚ) : Cmd :=
  mkCmd (some (":SENS" ++ natStr ch ++ ":" ++ f ++ ":PROT?"))
    (some (":SENS" ++ natStr ch ++ ":" ++ f ++ ":PROT"))
    (some (.atom (.flt (some 0) (some u)))) "rw"

/-- `SubSense.is_in_compliance` (query-only). -/
def k2400SubSenseInCompliance (ch : Nat) (f : String) : Cmd :=
  mkCmd (some (":SENS" ++ natStr ch ++ ":" ++ f ++ ":PROT:TRIP?")) none
    (some (.atom .bool)) "rw"

/-- `SubSense.offset_compensated` (RES only). -/
def k2400SubSenseOffsetComp (ch : Nat) (f : String) : Cmd :=
  mkCmd (some (":SENS" ++ natStr ch ++ ":" ++ f ++ ":OCOM?"))
    (some (":SENS" ++ natStr ch ++ ":" ++ f ++ ":OCOM"))
    (some (.atom .bool)) "rw"

/-- `SubSense.mode` (RES only, auto/manual mapping). -/
def k2400SubSenseMode (ch : Nat) (f : String) : Cmd :=
  mkCmd (some (":SENS" ++ natStr ch ++ ":" ++ f ++ ":MODE?"))
    (some (":SENS" ++ natStr ch ++ ":" ++ f ++ ":MODE"))
    (some (.atom (.mapping [("auto", "AUTO"), ("manual", "MAN")]))) "rw"

/-- Commands built by the K2400 `SubSense` constructor. -/
def k2400SubSenseCmds (ch : Nat) (f : String) (u : ℚ) : List Cmd :=
  [k2400SubSenseNplc ch f, k2400SubSenseAutoRange ch f, k2400SubSenseRange ch f u]
    ++ (if f = "VOLT" ∨ f = "CURR" then
          [k2400SubSenseCompliance ch f u, k2400SubSenseInCompliance ch f] else [])
    ++ (if f = "RES" then [k2400SubSenseOffsetComp ch f, k2400SubSenseMode ch f] else [])

/-- `Source.mode` / `Source.function_mode`. -/
def k2400SourceFuncMode (ch : Nat) : Cmd :=
  mkCmd (some (":SOUR" ++ natStr ch ++ ":FUNC:MODE?"))
    (some (":SOUR" ++ natStr ch ++ ":FUNC:MODE"))
    (some (.atom (.mapping k2400SourceFunctions))) "rw"

/-- `Source.function_shape` (Model 2430 only). -/
def k2400SourceFuncShape (ch : Nat) : Cmd :=
  mkCmd (some (":SOUR" ++ natStr ch ++ ":FUNC:SHAPE?"))
    (some (":SOUR" ++ natStr ch ++ ":FUNC:SHAPE"))
    (some (.atom (.mapping [("pulse", "PULS"), ("dc", "DC")]))) "rw"

/-- Commands built by the K2400 `Source` constructor itself. -/
def k2400SourceCmds (ch : Nat) : List Cmd :=
  [k2400SourceFuncMode ch, k2400SourceFuncShape ch]

/-- Commands built by the K2400 `SourceSweep` constructor. -/
def k2400SourceSweepCmds (ch : Nat) : List Cmd :=
  [mkCmd (some (":SOUR" ++ natStr ch ++ ":SWE:DIR?"))
     (some (":SOUR" ++ natStr ch ++ ":SWE:DIR"))
     (some (.atom (.mapping [("up", "UP"), ("down", "DOWN")]))) "rw",
   mkCmd (some (":SOUR" ++ natStr ch ++ ":SWE:POIN?"))
     (some (":SOUR" ++ natStr ch ++ ":SWE:POIN"))
     (some (.atom (.int (some 2) (some 2500)))) "rw",
   mkCmd (some (":SOUR" ++ natStr ch ++ ":SWE:RANG?"))
     (some (":SOUR" ++ natStr ch ++ ":SWE:RANG"))
     (some (.atom (.mapping [("best", "BEST"), ("fixed", "FIX"), ("auto", "AUTO")]))) "rw",
   mkCmd (some (":SOUR" ++ natStr ch ++ ":SWE:SPAC?"))
     (some (":SOUR" ++ natStr ch ++ ":SWE:SPAC"))
     (some (.atom (.mapping [("linear", "LIN"), ("logarithmic", "LOG")]))) "rw"]

/-- Commands built by the K2400 `SourceListSequence` constructor
(`_extend` is write-only with no codec; `_sequence` uses
`itertools.repeat(type)`, an unbounded homogeneous sequence, embedded as a
stream of the element codec). -/
def k2400SourceListSeqCmds (ch : Nat) (node : String) (lo hi : ℚ) : List Cmd :=
  [⟨none, some (":SOUR" ++ natStr ch ++ ":LIST:" ++ node ++ ":APPEND"), none⟩,
   mkCmd (some (":SOUR" ++ natStr ch ++ ":LIST:" ++ node ++ "?"))
     (some (":SOUR" ++ natStr ch ++ ":LIST:" ++ node))
     (some (.stream (.flt (some lo) (some hi)))) "rw"]

/-- `SubSource.level` (`Float(-ulim, ulim)`). -/
def k2400SubSourceLevel (ch : Nat) (f : String) (u : ℚ) : Cmd :=
  mkCmd (some (":SOUR" ++ natStr ch ++ ":" ++ f ++ ":LEV?"))
    (some (":SOUR" ++ natStr ch ++ ":" ++ f ++ ":LEV"))
    (some (.atom (.flt (some (-u)) (some u)))) "rw"

/-- `SubSource.level_triggered`. -/
def k2400SubSourceLevelTrig (ch : Nat) (f : String) (u : ℚ) : Cmd :=
  mkCmd (some (":SOUR" ++ natStr ch ++ ":" ++ f ++ ":TRIG?"))
    (some (":SOUR" ++ natStr ch ++ ":" ++ f ++ ":TRIG"))
    (some (.atom (.flt (some (-u)) (some u)))) "rw"

/-- `SubSource.mode` (sweep/list/fixed mapping). -/
def k2400SubSourceMode (ch : Nat) (f : String) : Cmd :=
  mkCmd (some (":SOUR" ++ natStr ch ++ ":" ++ f ++ ":MODE?"))
    (some (":SOUR" ++ natStr ch ++ ":" ++ f ++ ":MODE"))
    (some (.atom (.mapping [("sweep", "SWE"), ("list", "LIST"), ("fixed", "FIX")]))) "rw"

/-- `SubSource.range` (`Float(0, ulim)`). -/
def k2400SubSourceRange (ch : Nat) (f : String) (u : ℚ) : Cmd :=
  mkCmd (some (":SOUR" ++ natStr ch ++ ":" ++ f ++ ":RANG?"))
    (some (":SOUR" ++ natStr ch ++ ":" ++ f ++ ":RANG"))
    (some (.atom (.flt (some 0) (some u)))) "rw"

/-- `SubSource.auto_range`. -/
def k2400SubSourceAutoRange (ch : Nat) (f : String) : Cmd :=
  mkCmd (some (":SOUR" ++ natStr ch ++ ":" ++ f ++ ":RANG:AUTO?"))
    (some (":SOUR" ++ natStr ch ++ ":" ++ f ++ ":RANG:AUTO"))
    (some (.atom .bool)) "rw"

/-- `SubSource.center`. -/
def k2400SubSourceCenter (ch : Nat) (f : String) (u : ℚ) : Cmd :=
  mkCmd (some (":SOUR" ++ natStr ch ++ ":" ++ f ++ ":CENT?"))
    (some (":SOUR" ++ natStr ch ++ ":" ++ f ++ ":CENT"))
    (some (.atom (.flt (some (-u)) (some u)))) "rw"

/-- `SubSource.span`. -/
def k2400SubSourceSpan (ch : Nat) (f : String) (u : ℚ) : Cmd :=
  mkCmd (some (":SOUR" ++ natStr ch ++ ":" ++ f ++ ":SPAN?"))
    (some (":SOUR" ++ natStr ch ++ ":" ++ f ++ ":SPAN"))
    (some (.atom (.flt (some (-u)) (some u)))) "rw"

/-- `SubSource.points` / `SubSource.sweep_points` (`:SOUR{c}:POIN`, without
the function segment, `Integer(1, 2500)`). -/
def k2400SubSourcePoints (ch : Nat) : Cmd :=
  mkCmd (some (":SOUR" ++ natStr ch ++ ":POIN?"))
    (some (":SOUR" ++ natStr ch ++ ":POIN"))
    (some (.atom (.int (some 1) (some 2500)))) "rw"

/-- `SubSource.step` (`Float(min=0)`, no upper bound). -/
def k2400SubSourceStep (ch : Nat) (f : String) : Cmd :=
  mkCmd (some (":SOUR" ++ natStr ch ++ ":" ++ f ++ ":STEP?"))
    (some (":SOUR" ++ natStr ch ++ ":" ++ f ++ ":STEP"))
    (some (.atom (.flt (some 0) none))) "rw"

/-- `SubSource.start` / `SubSource.sweep_start`. -/
def k2400SubSourceStart (ch : Nat) (f : String) (u : ℚ) : Cmd :=
  mkCmd (some (":SOUR" ++ natStr ch ++ ":" ++ f ++ ":STAR?"))
    (some (":SOUR" ++ natStr ch ++ ":" ++ f ++ ":STAR"))
    (some (.atom (.flt (some (-u)) (some u)))) "rw"

/-- `SubSource.stop` / `SubSource.sweep_stop`. -/
def k2400SubSourceStop (ch : Nat) (f : String) (u : ℚ) : Cmd :=
  mkCmd (some (":SOUR" ++ natStr ch ++ ":" ++ f ++ ":STOP?"))
    (some (":SOUR" ++ natStr ch ++ ":" ++ f ++ ":STOP"))
    (some (.atom (.flt (some (-u)) (some u)))) "rw"

/-- Commands built by the K2400 `SubSource` constructor (its nested list
sequence node is appended). -/
def k2400SubSourceCmds (ch : Nat) (f : String) (u : ℚ) : List Cmd :=
  [k2400SubSourceLevel ch f u, k2400SubSourceLevelTrig ch f u, k2400SubSourceMode ch f,
   k2400SubSourceRange ch f u, k2400SubSourceAutoRange ch f, k2400SubSourceCenter ch f u,
   k2400SubSourceSpan ch f u, k2400SubSourcePoints ch, k2400SubSourceStep ch f,
   k2400SubSourceStart ch f u, k2400SubSourceStop ch f u]
    ++ k2400SourceListSeqCmds ch f (-u) u

/-- `Format.elements` and the device-level `sense_elements`. -/
def k2400FormatElementsCmd : Cmd :=
  ⟨some ":FORM:ELEM:SENS?", some ":FORM:ELEM:SENS",
   some (.stream (.mapping k2400FormatElements))⟩

/-- Commands built by the K2400 `Output` constructor. -/
def k2400OutputCmds (ch : Nat) : List Cmd :=
  [mkCmd (some (":OUTP" ++ natStr ch ++ "?")) (some ("OUTP" ++ natStr ch))
     (some (.atom .bool)) "rw",
   mkCmd (some (":OUTP" ++ natStr ch ++ ":INT:STAT?"))
     (some (":OUTP" ++ natStr ch ++ ":INT:STAT")) (some (.atom .bool)) "rw",
   mkCmd (some (":OUTP" ++ natStr ch ++ ":INT:TRIP?")) none (some (.atom .bool)) "rw",
   mkCmd (some (":OUTP" ++ natStr ch ++ ":SMODE?")) (some (":OUTP" ++ natStr ch ++ ":SMODE"))
     (some (.atom (.mapping [("high-impedance", "HIMP"), ("normal", "NORM"),
        ("zero", "ZERO"), ("guard", "GUAR")]))) "rw"]

/-- Commands built by the K2400 `Trace` constructor. -/
def k2400TraceCmds (ch : Nat) : List Cmd :=
  [mkCmd (some (":TRAC" ++ natStr ch ++ ":FREE?")) (some (":TRAC" ++ natStr ch ++ ":FREE"))
     (some (.tuple [.int none none, .int none none])) "rw",
   mkCmd (some (":TRAC" ++ natStr ch ++ ":POIN?")) (some ("TRAC" ++ natStr ch ++ ":POIN"))
     (some (.atom (.int (some 1) (some 100000)))) "rw",
   mkCmd (some (":TRAC" ++ natStr ch ++ ":POIN:ACT?")) none
     (some (.atom (.int none none))) "rw"]

/-- Every `Command` the K2400 device tree constructs (channel tuple `(1,)`,
trigger layers TRIG and ARM, sub-nodes for VOLT/CURR/RES), together with the
write-only commands built inside `Sense` methods. -/
def k2400AllCmds : List Cmd :=
  k2400SourceCmds 1
    ++ k2400SourceSweepCmds 1
    ++ k2400SourceListSeqCmds 1 "CURR" (-k2400IMax) k2400IMax
    ++ k2400SourceListSeqCmds 1 "VOLT" (-k2400VMax) k2400VMax
    ++ k2400SubSourceCmds 1 "CURR" k2400IMax
    ++ k2400SubSourceCmds 1 "VOLT" k2400VMax
    ++ k2400SenseCmds
    ++ k2400SubSenseCmds 1 "VOLT" k2400VMax
    ++ k2400SubSenseCmds 1 "CURR" k2400IMax
    ++ k2400SubSenseCmds 1 "RES" k2400RMax
    ++ k2400TriggeringCmds "TRIG"
    ++ k2400TriggeringCmds "ARM"
    ++ k2400OutputCmds 1
    ++ k2400TraceCmds 1
    ++ [k2400FormatElementsCmd, k2400FormatElementsCmd]
    ++ [k2400SenseEnableCmd 1, k2400SenseDisableCmd 1,
        k2400SenseFunctionsCmd 1, k2400SenseFunctionsOffCmd 1]

/-! ### K2400 Setup facade (from `k2400.py`, class `Setup`) -/

/-- Multiplication of a decimal number by 50 (`integration_time * 50` in
`Setup.sense`). -/
def dMul50 (d : DecNum) : DecNum := ⟨d.m * 50, d.k⟩

/-- `Setup.triggering(count, delay, channel)`: the channel argument is unused
on the K2400 (its trigger templates carry no channel), the triggering node has
layer TRIG. -/
def k2400SetupTriggering (count : Option Int) (delay : Option DecNum)
    (st : WOut) : WOut :=
  wopt (k2400TrigDelay "TRIG") (delay.map (fun d => .a (.ad d)))
    (wopt (k2400TrigCount "TRIG") (count.map (fun n => .a (.ai n))) st)

/-- `Setup.sweep_source(function, start, stop, points, channel)`: dispatch on
the function prefix, then set trigger count, source function mode, sub-source
mode `sweep`, sweep start, sweep stop and sweep points, in this order. -/
def k2400SweepSource (function : String) (start stop : DecNum) (points : Int)
    (ch : Nat) : WOut :=
  let go : String → ℚ → WOut := fun f u =>
    wcmd (k2400SubSourcePoints ch) (.a (.ai points))
      (wcmd (k2400SubSourceStop ch f u) (.a (.ad stop))
        (wcmd (k2400SubSourceStart ch f u) (.a (.ad start))
          (wcmd (k2400SubSourceMode ch f) (.a (.as "sweep"))
            (wcmd (k2400SourceFuncMode ch) (.a (.as function))
              (k2400SetupTriggering (some points) none ([], none))))))
  if lsw function "volt" then go "VOLT" k2400VMax
  else if lsw function "curr" then go "CURR" k2400IMax
  else ([], some (.value ("Invalid function: " ++ function)))

/-- `Setup.sense(...)` of the K2400: conflicting-argument checks come first
(before the function dispatch), then the optional writes in source order;
`integration_time` is converted to power-line cycles by multiplying with 50
and written to the `nplc` command. -/
def k2400SetupSense (function : String) (auto_range : Option Bool)
    (range_ : Option DecNum) (nplc : Option DecNum) (compliance : Option DecNum)
    (four_wire : Option Bool) (integration_time : Option DecNum)
    (ch : Nat) : WOut :=
  if (auto_range.getD false) && range_.isSome then
    ([], some (.value "Cannot enable auto_range and set range at the same time."))
  else if nplc.isSome && integration_time.isSome then
    ([], some (.value "nplc and integration_time are mutually exclusive."))
  else
    let go : String → ℚ → WOut := fun f u =>
      wopt (k2400SubSenseCompliance ch f u) (compliance.map (fun d => .a (.ad d)))
        (wopt (k2400SubSenseNplc ch f)
          ((integration_time.map dMul50).map (fun d => .a (.ad d)))
          (wopt (k2400SubSenseNplc ch f) (nplc.map (fun d => .a (.ad d)))
            (wopt (k2400SubSenseRange ch f u) (range_.map (fun d => .a (.ad d)))
              (wopt (k2400SubSenseAutoRange ch f) (auto_range.map (fun b => .a (.ab b)))
                (wopt k2400SenseRemote (four_wire.map (fun b => .a (.ab b)))
                  ([], none))))))
    if lsw function "volt" then go "VOLT" k2400VMax
    else if lsw function "curr" then go "CURR" k2400IMax
    else ([], some (.value ("Invalid function: " ++ function)))

/-- The `SubSense.auto_range_limit` setter of the K2400: dump the present
limits (bounds-checked by `Float(0, ulim)`), then raise `ValueError` when both
limits are truthy (present and nonzero) with lower above upper, and only then
issue the joined write. -/
def k2400AutoRangeLimitSet (ch : Nat) (f : String) (u : ℚ)
    (lower upper : Option DecNum) : WOut :=
  let pre := ":SENS" ++ natStr ch ++ ":" ++ f
  let step1 : Except Err (List String) :=
    match lower with
    | none => .ok []
    | some l =>
      if fltOk (some 0) (some u) l.toRat then .ok [pre ++ ":RANGE:AUTO:LLIM " ++ printD l]
      else .error .range
  match step1 with
  | .error e => ([], some e)
  | .ok cmds1 =>
    let step2 : Except Err (List String) :=
      match upper with
      | none => .ok cmds1
      | some up =>
        if fltOk (some 0) (some u) up.toRat then
          .ok (cmds1 ++ [pre ++ ":RANGE:AUTO:ULIM " ++ printD up])
        else .error .range
    match step2 with
    | .error e => ([], some e)
    | .ok cmds =>
      match lower, upper with
      | some l, some up =>
        if l.toRat ≠ 0 ∧ up.toRat ≠ 0 ∧ up.toRat < l.toRat then
          ([], some (.value "The lower limit must be smaller or equal to the upper limit."))
        else ([joinSep "; " cmds], none)
      | _, _ => ([joinSep "; " cmds], none)

/-! ### B2900 driver command tables (from `src/slave/agilent/b2900.py`) -/

/-- Upper-case an ASCII letter. -/
def upperChar (c : Char) : Char :=
  if 'a' ≤ c ∧ c ≤ 'z' then Char.ofNat (c.toNat - 32) else c

/-- Upper-case a string (models `str.upper()`). -/
def upperStr (s : String) : String := ⟨s.data.map upperChar⟩

/-- Maximum source/measure values (`b2900.py`). -/
def b2900VMax : ℚ := 210

def b2900IMax : ℚ := 10

def b2900RMax : ℚ := 200000000

/-- The `_sense_functions` table of the B2900. -/
def b2900SenseFunctions : List (String × String) :=
  [("voltage", "\"VOLT\""), ("current", "\"CURR\""), ("resistance", "\"RES\"")]

/-- The `_source_functions` table of the B2900. -/
def b2900SourceFunctions : List (String × String) :=
  [("voltage", "VOLT"), ("current", "CURR")]

/-- The `_elements` table of the B2900. -/
def b2900Elements : List (String × String) :=
  [("voltage", "VOLT"), ("current", "CURR"), ("resistance", "RES"),
   ("time", "TIME"), ("status", "STAT"), ("source", "SOUR")]

/-- The `Triggering._sources` table: six named sources plus `ext1`..`ext14`
(whose protocol values are the numbers themselves). -/
def b2900TriggerSources : List (String × String) :=
  [("automatic internal", "AINT"), ("bus", "BUS"), ("timer", "TIM"),
   ("internal1", "INT1"), ("internal2", "INT2"), ("lan", "LAN")]
    ++ (List.range 14).map (fun i => ("ext" ++ natStr (i + 1), natStr (i + 1)))

/-- The LAN-port mapping of `Triggering.source_lan` (`lan0`..`lan7`). -/
def b2900LanPorts : List (String × String) :=
  (List.range 8).map (fun i => ("lan" ++ natStr i, "LAN" ++ natStr i))

/-- The `_trigger_outputs` mapping of `Triggering.output_signal`
(`ext0`..`ext14`, `lan`, `int1`, `int2`, each mapped to its upper case). -/
def b2900TriggerOutputs : List (String × String) :=
  ((List.range 15).map (fun i => "ext" ++ natStr i) ++ ["lan", "int1", "int2"]).map
    (fun o => (o, upperStr o))

/-- Template prefix `:{l}{c}:{a}` of the B2900 trigger commands. -/
def b2900TrigPre (ch : Nat) (l a : String) : String :=
  ":" ++ l ++ natStr ch ++ ":" ++ a

/-- `Triggering.count` (`Integer(1, 100000)`); mode `wo` for the ALL action. -/
def b2900TrigCount (ch : Nat) (l a : String) (mode : String) : Cmd :=
  mkCmd (some (b2900TrigPre ch l a ++ ":COUN?")) (some (b2900TrigPre ch l a ++ ":COUN"))
    (some (.atom (.int (some 1) (some 100000)))) mode

/-- `Triggering.delay` (`Float(0, 100)`). -/
def b2900TrigDelay (ch : Nat) (l a : String) (mode : String) : Cmd :=
  mkCmd (some (b2900TrigPre ch l a ++ ":DEL?")) (some (b2900TrigPre ch l a ++ ":DEL"))
    (some (.atom (.flt (some 0) (some 100)))) mode

/-- `Triggering.source` (mapping of the `_sources` table). -/
def b2900TrigSourceCmd (ch : Nat) (l a : String) (mode : String) : Cmd :=
  mkCmd (some (b2900TrigPre ch l a ++ ":SOUR?")) (some (b2900TrigPre ch l a ++ ":SOUR"))
    (some (.atom (.mapping b2900TriggerSources))) mode

/-- `Triggering.timer` (`Float(2e-5, 1e5)`). -/
def b2900TrigTimer (ch : Nat) (l a : String) (mode : String) : Cmd :=
  mkCmd (some (b2900TrigPre ch l a ++ ":TIM?")) (some (b2900TrigPre ch l a ++ ":TIM"))
    (some (.atom (.flt (some (mkRat 2 100000)) (some 100000)))) mode

/-- Commands built by the B2900 `Triggering` constructor for one node; the
mode is `wo` (write-only) exactly when the node's action is `ALL`. -/
def b2900TriggeringCmds (ch : Nat) (l a : String) : List Cmd :=
  let mode := if a = "ALL" then "wo" else "rw"
  [mkCmd (some (b2900TrigPre ch l a ++ ":BYP?")) (some (b2900TrigPre ch l a ++ ":BYP"))
     (some (.atom .bool)) mode,
   b2900TrigCount ch l a mode,
   b2900TrigDelay ch l a mode,
   mkCmd (some (b2900TrigPre ch l a ++ ":SOUR:LAN?"))
     (some (b2900TrigPre ch l a ++ ":SOUR:LAN"))
     (some (.stream (.mapping b2900LanPorts))) mode,
   b2900TrigSourceCmd ch l a mode,
   b2900TrigTimer ch l a mode,
   mkCmd (some (b2900TrigPre ch l a ++ ":TOUT:SIGN?"))
     (some (b2900TrigPre ch l a ++ ":TOUT:SIGN"))
     (some (.stream (.mapping b2900TriggerOutputs))) mode,
   mkCmd (some (b2900TrigPre ch l a ++ ":TOUT:STAT?"))
     (some (b2900TrigPre ch l a ++ ":TOUT:STAT"))
     (some (.atom .bool)) mode]

/-- The B2900 `Triggering.__init__`: an unknown layer raises `ValueError`; an
unknown action merely formats a message string and discards it (no raise), so
the constructor completes.  Returns the node's commands and, for the ALL
action, its `transient`/`acquire` child nodes. -/
def b2900TriggeringInit (ch : Nat) (l a : String) :
    Except Err (List Cmd × List (String × List Cmd)) :=
  if l = "TRIG" ∨ l = "ARM" ∨ l = "ALL" then
    .ok (b2900TriggeringCmds ch l a,
      if a = "ALL" then
        [("TRAN", b2900TriggeringCmds ch l "TRAN"), ("ACQ", b2900TriggeringCmds ch l "ACQ")]
      else [])
  else .error (.value ("Unknown layer: " ++ l))

/-- `Sense.remote_sense` / `Sense.four_wire` (`:SENS{c}:REM`). -/
def b2900SenseRemote (ch : Nat) : Cmd :=
  mkCmd (some (":SENS" ++ natStr ch ++ ":REM?")) (some (":SENS" ++ natStr ch ++ ":REM"))
    (some (.atom .bool)) "rw"

/-- Commands built by the B2900 `Sense` constructor. -/
def b2900SenseCmds (ch : Nat) : List Cmd :=
  [b2900SenseRemote ch,
   mkCmd (some (":SENS" ++ natStr ch ++ ":WAIT:AUTO?"))
     (some (":SENS" ++ natStr ch ++ ":WAIT:AUTO")) (some (.atom .bool)) "rw",
   mkCmd (some (":SENS" ++ natStr ch ++ ":WAIT:GAIN?"))
     (some (":SENS" ++ natStr ch ++ ":WAIT:GAIN"))
     (some (.atom (.flt (some 0) (some 100)))) "rw",
   mkCmd (some (":SENS" ++ natStr ch ++ ":WAIT:OFFS?"))
     (some (":SENS" ++ natStr ch ++ ":WAIT:OFFS"))
     (some (.atom (.flt (some 0) (some 1)))) "rw",
   mkCmd (some (":SENS" ++ natStr ch ++ ":WAIT?"))
     (some (":SENS" ++ natStr ch ++ ":WAIT")) (some (.atom .bool)) "rw"]

/-- The write-only command built by the B2900 `Sense.enable`. -/
def b2900SenseEnableCmd (ch : Nat) : Cmd :=
  ⟨none, some (":SENS" ++ natStr ch ++ ":FUNC:ON"),
   some (.atom (.mapping b2900SenseFunctions))⟩

/-- The write-only command built by the B2900 `Sense.disable`. -/
def b2900SenseDisableCmd (ch : Nat) : Cmd :=
  ⟨none, some (":SENS" ++ natStr ch ++ ":FUNC:OFF"),
   some (.atom (.mapping b2900SenseFunctions))⟩

/-- `SubSense.aperture` (`Float(8e-6, 2)`). -/
def b2900SubSenseAperture (ch : Nat) (f : String) : Cmd :=
  mkCmd (some (":SENS" ++ natStr ch ++ ":" ++ f ++ ":APER?"))
    (some (":SENS" ++ natStr ch ++ ":" ++ f ++ ":APER"))
    (some (.atom (.flt (some (mkRat 8 1000000)) (some 2)))) "rw"

/-- `SubSense.nplc` (`Float(0.01, 10)`). -/
def b2900SubSenseNplc (ch : Nat) (f : String) : Cmd :=
  mkCmd (some (":SENS" ++ natStr ch ++ ":" ++ f ++ ":NPLC?"))
    (some (":SENS" ++ natStr ch ++ ":" ++ f ++ ":NPLC"))
    (some (.atom (.flt (some (mkRat 1 100)) (some 10)))) "rw"

/-- `SubSense.auto_range` (query `RANG:AUTO?`, write `RANGE:AUTO`). -/
def b2900SubSenseAutoRange (ch : Nat) (f : String) : Cmd :=
  mkCmd (some (":SENS" ++ natStr ch ++ ":" ++ f ++ ":RANG:AUTO?"))
    (some (":SENS" ++ natStr ch ++ ":" ++ f ++ ":RANGE:AUTO"))
    (some (.atom .bool)) "rw"

/-- `SubSense.range` (`Float(0, ulim)`). -/
def b2900SubSenseRange (ch : Nat) (f : String) (u : ℚ) : Cmd :=
  mkCmd (some (":SENS" ++ natStr ch ++ ":" ++ f ++ ":RANG?"))
    (some (":SENS" ++ natStr ch ++ ":" ++ f ++ ":RANG"))
    (some (.atom (.flt (some 0) (some u)))) "rw"

/-- `SubSense.compliance` (VOLT/CURR only). -/
def b2900SubSenseCompliance (ch : Nat) (f : String) (u : ℚ) : Cmd :=
  mkCmd (some (":SENS" ++ natStr ch ++ ":" ++ f ++ ":PROT?"))
    (some (":SENS" ++ natStr ch ++ ":" ++ f ++ ":PROT"))
    (some (.atom (.flt (some 0) (some u)))) "rw"

/-- Commands built by the B2900 `SubSense` constructor. -/
def b2900SubSenseCmds (ch : Nat) (f : String) (u : ℚ) : List Cmd :=
  [b2900SubSenseAperture ch f, b2900SubSenseNplc ch f, b2900SubSenseAutoRange ch f,
   b2900SubSenseRange ch f u]
    ++ (if f = "VOLT" ∨ f = "CURR" then
          [b2900SubSenseCompliance ch f u,
           mkCmd (some (":SENS" ++ natStr ch ++ ":" ++ f ++ ":PROT:TRIP?")) none
             (some (.atom .bool)) "rw"] else [])
    ++ (if f = "RES" then
          [mkCmd (some (":SENS" ++ natStr ch ++ ":" ++ f ++ ":OCOM?"))
             (some (":SENS" ++ natStr ch ++ ":" ++ f ++ ":OCOM"))
             (some (.atom .bool)) "rw",
           mkCmd (some (":SENS" ++ natStr ch ++ ":" ++ f ++ ":MODE?"))
             (some (":SENS" ++ natStr ch ++ ":" ++ f ++ ":MODE"))
             (some (.atom (.mapping [("auto", "AUTO"), ("manual", "MAN")]))) "rw"]
        else [])

/-- `Source.mode` / `Source.function_mode` of the B2900. -/
def b2900SourceFuncMode (ch : Nat) : Cmd :=
  mkCmd (some (":SOUR" ++ natStr ch ++ ":FUNC:MODE?"))
    (some (":SOUR" ++ natStr ch ++ ":FUNC:MODE"))
    (some (.atom (.mapping b2900SourceFunctions))) "rw"

/-- `Source.function_shape` of the B2900. -/
def b2900SourceFuncShape (ch : Nat) : Cmd :=
  mkCmd (some (":SOUR" ++ natStr ch ++ ":FUNC:SHAPE?"))
    (some (":SOUR" ++ natStr ch ++ ":FUNC:SHAPE"))
    (some (.atom (.mapping [("pulse", "PULS"), ("dc", "DC")]))) "rw"

/-- Commands built by the B2900 `Source` constructor itself. -/
def b2900SourceCmds (ch : Nat) : List Cmd :=
  [b2900SourceFuncMode ch, b2900SourceFuncShape ch,
   mkCmd (some (":SOUR" ++ natStr ch ++ ":FUNC:TRIG:CONT?"))
     (some (":SOUR" ++ natStr ch ++ ":FUNC:TRIG:CONT")) (some (.atom .bool)) "rw",
   mkCmd (some (":SOUR" ++ natStr ch ++ ":WAIT:AUTO?"))
     (some (":SOUR" ++ natStr ch ++ ":WAIT:AUTO")) (some (.atom .bool)) "rw",
   mkCmd (some (":SOUR" ++ natStr ch ++ ":WAIT:GAIN?"))
     (some (":SOUR" ++ natStr ch ++ ":WAIT:GAIN"))
     (some (.atom (.flt (some 0) (some 100)))) "rw",
   mkCmd (some (":SOUR" ++ natStr ch ++ ":WAIT:OFFS?"))
     (some (":SOUR" ++ natStr ch ++ ":WAIT:OFFS"))
     (some (.atom (.flt (some 0) (some 1)))) "rw",
   mkCmd (some (":SOUR" ++ natStr ch ++ ":WAIT?"))
     (some (":SOUR" ++ natStr ch ++ ":WAIT")) (some (.atom .bool)) "rw"]

/-- `SourceSweep.points` of the B2900: write-only (`:SOUR{c}:SWE:POIN`,
`Integer(1, 2500)`); sweep point counts cannot be queried through this node
(see the comment in the source). -/
def b2900SourceSweepPoints (ch : Nat) : Cmd :=
  mkCmd none (some (":SOUR" ++ natStr ch ++ ":SWE:POIN"))
    (some (.atom (.int (some 1) (some 2500)))) "rw"

/-- Commands built by the B2900 `SourceSweep` constructor. -/
def b2900SourceSweepCmds (ch : Nat) : List Cmd :=
  [mkCmd (some (":SOUR" ++ natStr ch ++ ":SWE:DIR?"))
     (some (":SOUR" ++ natStr ch ++ ":SWE:DIR"))
     (some (.atom (.mapping [("up", "UP"), ("down", "DOWN")]))) "rw",
   b2900SourceSweepPoints ch,
   mkCmd (some (":SOUR" ++ natStr ch ++ ":SWE:RANG?"))
     (some (":SOUR" ++ natStr ch ++ ":SWE:RANG"))
     (some (.atom (.mapping [("best", "BEST"), ("fixed", "FIX"), ("auto", "AUTO")]))) "rw",
   mkCmd (some (":SOUR" ++ natStr ch ++ ":SWE:SPAC?"))
     (some (":SOUR" ++ natStr ch ++ ":SWE:SPAC"))
     (some (.atom (.mapping [("linear", "LIN"), ("logarithmic", "LOG")]))) "rw",
   mkCmd (some (":SOUR" ++ natStr ch ++ ":SWE:STA?"))
     (some (":SOUR" ++ natStr ch ++ ":SWE:STA"))
     (some (.atom (.mapping [("single", "SING"), ("double", "DOUB")]))) "rw"]

/-- `SubSource.mode` of the B2900 (sweep/list/fixed mapping). -/
def b2900SubSourceMode (ch : Nat) (f : String) : Cmd :=
  mkCmd (some (":SOUR" ++ natStr ch ++ ":" ++ f ++ ":MODE?"))
    (some (":SOUR" ++ natStr ch ++ ":" ++ f ++ ":MODE"))
    (some (.atom (.mapping [("sweep", "SWE"), ("list", "LIST"), ("fixed", "FIX")]))) "rw"

/-- `SubSource.start` / `SubSource.sweep_start` of the B2900. -/
def b2900SubSourceStart (ch : Nat) (f : String) (u : ℚ) : Cmd :=
  mkCmd (some (":SOUR" ++ natStr ch ++ ":" ++ f ++ ":STAR?"))
    (some (":SOUR" ++ natStr ch ++ ":" ++ f ++ ":STAR"))
    (some (.atom (.flt (some (-u)) (some u)))) "rw"

/-- `SubSource.stop` / `SubSource.sweep_stop` of the B2900. -/
def b2900SubSourceStop (ch : Nat) (f : String) (u : ℚ) : Cmd :=
  mkCmd (some (":SOUR" ++ natStr ch ++ ":" ++ f ++ ":STOP?"))
    (some (":SOUR" ++ natStr ch ++ ":" ++ f ++ ":STOP"))
    (some (.atom (.flt (some (-u)) (some u)))) "rw"

/-- `SubSource.points` / `SubSource.sweep_points` of the B2900
(`:SOUR{c}:{f}:POIN`, `Integer(1, 2500)`). -/
def b2900SubSourcePoints (ch : Nat) (f : String) : Cmd :=
  mkCmd (some (":SOUR" ++ natStr ch ++ ":" ++ f ++ ":POIN?"))
    (some (":SOUR" ++ natStr ch ++ ":" ++ f ++ ":POIN"))
    (some (.atom (.int (some 1) (some 2500)))) "rw"

/-- `SubSource.level` of the B2900. -/
def b2900SubSourceLevel (ch : Nat) (f : String) (u : ℚ) : Cmd :=
  mkCmd (some (":SOUR" ++ natStr ch ++ ":" ++ f ++ ":LEV?"))
    (some (":SOUR" ++ natStr ch ++ ":" ++ f ++ ":LEV"))
    (some (.atom (.flt (some (-u)) (some u)))) "rw"

/-- Commands built by the B2900 `SubSource` constructor. -/
def b2900SubSourceCmds (ch : Nat) (f : String) (u : ℚ) : List Cmd :=
  [mkCmd (some (":SOUR" ++ natStr ch ++ ":" ++ f ++ ":CENT?"))
     (some (":SOUR" ++ natStr ch ++ ":" ++ f ++ ":CENT"))
     (some (.atom (.flt (some (-u)) (some u)))) "rw",
   mkCmd (some (":SOUR" ++ natStr ch ++ ":" ++ f ++ ":SPAN?"))
     (some (":SOUR" ++ natStr ch ++ ":" ++ f ++ ":SPAN"))
     (some (.atom (.flt (some (-u)) (some u)))) "rw",
   b2900SubSourceLevel ch f u,
   mkCmd (some (":SOUR" ++ natStr ch ++ ":" ++ f ++ ":TRIG?"))
     (some (":SOUR" ++ natStr ch ++ ":" ++ f ++ ":TRIG"))
     (some (.atom (.flt (some (-u)) (some u)))) "rw",
   b2900SubSourceMode ch f,
   mkCmd (some (":SOUR" ++ natStr ch ++ ":" ++ f ++ ":RANG?"))
     (some (":SOUR" ++ natStr ch ++ ":" ++ f ++ ":RANG"))
     (some (.atom (.flt (some 0) (some u)))) "rw",
   mkCmd (some (":SOUR" ++ natStr ch ++ ":" ++ f ++ ":RANG:AUTO?"))
     (some (":SOUR" ++ natStr ch ++ ":" ++ f ++ ":RANG:AUTO"))
     (some (.atom .bool)) "rw",
   mkCmd (some (":SOUR" ++ natStr ch ++ ":" ++ f ++ ":RANG:AUTO:LLIM?"))
     (some (":SOUR" ++ natStr ch ++ ":" ++ f ++ ":RANG:AUTO:LLIM"))
     (some (.atom (.flt (some (-u)) (some u)))) "rw",
   b2900SubSourcePoints ch f,
   mkCmd (some (":SOUR" ++ natStr ch ++ ":" ++ f ++ ":STEP?"))
     (some (":SOUR" ++ natStr ch ++ ":" ++ f ++ ":STEP"))
     (some (.atom (.flt (some 0) none))) "rw",
   b2900SubSourceStart ch f u,
   b2900SubSourceStop ch f u,
   mkCmd (some (":SOUR" ++ natStr ch ++ ":LIST:" ++ f ++ "?"))
     (some (":SOUR" ++ natStr ch ++ ":LIST:" ++ f))
     (some (.stream (.flt (some (-u)) (some u)))) "rw"]

/-- `Format.elements` and the device-level `sense_elements` of the B2900. -/
def b2900FormatElementsCmd : Cmd :=
  ⟨some ":FORM:ELEM:SENS?", some ":FORM:ELEM:SENS",
   some (.stream (.mapping b2900Elements))⟩

/-- Commands built by the B2900 `Output` constructor. -/
def b2900OutputCmds (ch : Nat) : List Cmd :=
  [mkCmd (some (":OUTP" ++ natStr ch ++ ":FILT:AUTO?"))
     (some (":OUTP" ++ natStr ch ++ ":FILT:AUTO")) (some (.atom .bool)) "rw",
   mkCmd (some (":OUTP" ++ natStr ch ++ ":FILT:FREQ?"))
     (some (":OUTP" ++ natStr ch ++ ":FILT:FREQ"))
     (some (.atom (.flt (some (mkRat 31830 1000)) (some 31831)))) "rw",
   mkCmd (some (":OUTP" ++ natStr ch ++ ":FILT?"))
     (some (":OUTP" ++ natStr ch ++ ":FILT")) (some (.atom .bool)) "rw",
   mkCmd (some (":OUTP" ++ natStr ch ++ ":FILT:TCON?"))
     (some (":OUTP" ++ natStr ch ++ ":FILT:TCON"))
     (some (.atom (.flt none none))) "rw",
   mkCmd (some (":OUTP" ++ natStr ch ++ ":HCAP?"))
     (some (":OUTP" ++ natStr ch ++ ":HCAP")) (some (.atom .bool)) "rw",
   mkCmd (some (":OUTP" ++ natStr ch ++ ":LOW?"))
     (some (":OUTP" ++ natStr ch ++ ":LOW"))
     (some (.atom (.mapping [("float", "FLO"), ("ground", "GRO")]))) "rw",
   mkCmd (some (":OUTP" ++ natStr ch ++ ":OFF:AUTO?"))
     (some (":OUTP" ++ natStr ch ++ ":OFF:AUTO")) (some (.atom .bool)) "rw",
   mkCmd (some (":OUTP" ++ natStr ch ++ ":ON:AUTO?"))
     (some (":OUTP" ++ natStr ch ++ ":ON:AUTO")) (some (.atom .bool)) "rw",
   mkCmd (some (":OUTP" ++ natStr ch ++ "?")) (some ("OUTP" ++ natStr ch))
     (some (.atom .bool)) "rw",
   mkCmd (some (":OUTP" ++ natStr ch ++ ":OFF:MODE?"))
     (some (":OUTP" ++ natStr ch ++ ":OFF:MODE"))
     (some (.atom (.mapping [("high-impedance", "HIZ"), ("normal", "NORM"),
        ("zero", "ZERO")]))) "rw"]

/-- Commands built by the B2900 `Trace` constructor. -/
def b2900TraceCmds (ch : Nat) : List Cmd :=
  [mkCmd (some (":TRAC" ++ natStr ch ++ ":FREE?")) (some (":TRAC" ++ natStr ch ++ ":FREE"))
     (some (.tuple [.int none none, .int none none])) "rw",
   mkCmd (some (":TRAC" ++ natStr ch ++ ":POIN?")) (some ("TRAC" ++ natStr ch ++ ":POIN"))
     (some (.atom (.int (some 1) (some 100000)))) "rw",
   mkCmd (some (":TRAC" ++ natStr ch ++ ":POIN:ACT?")) none
     (some (.atom (.int none none))) "rw"]

/-- Every `Command` one B2900 channel tree constructs: sources, senses, the
TRIG/ARM trigger nodes of the ALL action with their TRAN/ACQ children, output
and trace, plus the write-only commands the `Sense` methods build. -/
def b2900ChannelCmds (ch : Nat) : List Cmd :=
  b2900SourceCmds ch
    ++ b2900SourceSweepCmds ch
    ++ b2900SubSourceCmds ch "CURR" b2900IMax
    ++ b2900SubSourceCmds ch "VOLT" b2900VMax
    ++ b2900SenseCmds ch
    ++ b2900SubSenseCmds ch "VOLT" b2900VMax
    ++ b2900SubSenseCmds ch "CURR" b2900IMax
    ++ b2900SubSenseCmds ch "RES" b2900RMax
    ++ b2900TriggeringCmds ch "TRIG" "ALL"
    ++ b2900TriggeringCmds ch "TRIG" "TRAN"
    ++ b2900TriggeringCmds ch "TRIG" "ACQ"
    ++ b2900TriggeringCmds ch "ARM" "ALL"
    ++ b2900TriggeringCmds ch "ARM" "TRAN"
    ++ b2900TriggeringCmds ch "ARM" "ACQ"
    ++ b2900OutputCmds ch
    ++ b2900TraceCmds ch
    ++ [b2900SenseEnableCmd ch, b2900SenseDisableCmd ch]

/-- Every `Command` the dual-channel B2900 device tree constructs. -/
def b2900AllCmds : List Cmd :=
  b2900ChannelCmds 1 ++ b2900ChannelCmds 2
    ++ [b2900FormatElementsCmd, b2900FormatElementsCmd]

/-! ### B2900 Setup facade (from `b2900.py`, class `Setup`) -/

/-- `Setup.triggering(source, count, timer, delay, channel)`: the channel's
triggering node has layer TRIG and action ALL (all of its commands are
write-only); writes are issued in source order. -/
def b2900SetupTriggering (source : Option String) (count : Option Int)
    (timer : Option DecNum) (delay : Option DecNum) (ch : Nat) (st : WOut) : WOut :=
  wopt (b2900TrigDelay ch "TRIG" "ALL" "wo") (delay.map (fun d => .a (.ad d)))
    (wopt (b2900TrigTimer ch "TRIG" "ALL" "wo") (timer.map (fun d => .a (.ad d)))
      (wopt (b2900TrigCount ch "TRIG" "ALL" "wo") (count.map (fun n => .a (.ai n)))
        (wopt (b2900TrigSourceCmd ch "TRIG" "ALL" "wo")
          (source.map (fun s => .a (.as s))) st)))

/-- `Setup.sweep_source(function, start, stop, points, channel)` of the B2900:
dispatch on the function prefix, then set trigger count, source function mode,
source shape `dc`, sub-source mode `sweep`, sweep start, sweep stop and the
sub-source points, in this order. -/
def b2900SweepSource (function : String) (start stop : DecNum) (points : Int)
    (ch : Nat) : WOut :=
  let go : String → ℚ → WOut := fun f u =>
    wcmd (b2900SubSourcePoints ch f) (.a (.ai points))
      (wcmd (b2900SubSourceStop ch f u) (.a (.ad stop))
        (wcmd (b2900SubSourceStart ch f u) (.a (.ad start))
          (wcmd (b2900SubSourceMode ch f) (.a (.as "sweep"))
            (wcmd (b2900SourceFuncShape ch) (.a (.as "dc"))
              (wcmd (b2900SourceFuncMode ch) (.a (.as function))
                (b2900SetupTriggering none (some points) none none ch ([], none)))))))
  if lsw function "volt" then go "VOLT" b2900VMax
  else if lsw function "curr" then go "CURR" b2900IMax
  else ([], some (.value ("Invalid function: " ++ function)))

/-- `Setup.sense(...)` of the B2900: the conflicting-argument checks come
first, then the dispatch and the optional writes in source order;
`integration_time` is written unchanged to the `aperture` command. -/
def b2900SetupSense (function : String) (auto_range : Option Bool)
    (range_ : Option DecNum) (nplc : Option DecNum) (compliance : Option DecNum)
    (four_wire : Option Bool) (integration_time : Option DecNum)
    (ch : Nat) : WOut :=
  if (auto_range.getD false) && range_.isSome then
    ([], some (.value "Cannot enable auto_range and set range at the same time."))
  else if nplc.isSome && integration_time.isSome then
    ([], some (.value "nplc and integration_time are mutually exclusive."))
  else
    let go : String → ℚ → WOut := fun f u =>
      wopt (b2900SubSenseCompliance ch f u) (compliance.map (fun d => .a (.ad d)))
        (wopt (b2900SubSenseAperture ch f) (integration_time.map (fun d => .a (.ad d)))
          (wopt (b2900SubSenseNplc ch f) (nplc.map (fun d => .a (.ad d)))
            (wopt (b2900SubSenseRange ch f u) (range_.map (fun d => .a (.ad d)))
              (wopt (b2900SubSenseAutoRange ch f) (auto_range.map (fun b => .a (.ab b)))
                (wopt (b2900SenseRemote ch) (four_wire.map (fun b => .a (.ab b)))
                  ([], none))))))
    if lsw function "volt" then go "VOLT" b2900VMax
    else if lsw function "curr" then go "CURR" b2900IMax
    else ([], some (.value ("Invalid function: " ++ function)))

/-- The `SubSense.auto_range_limit` setter of the B2900 (textually identical
logic to the K2400 one). -/
def b2900AutoRangeLimitSet (ch : Nat) (f : String) (u : ℚ)
    (lower upper : Option DecNum) : WOut :=
  let pre := ":SENS" ++ natStr ch ++ ":" ++ f
  let step1 : Except Err (List String) :=
    match lower with
    | none => .ok []
    | some l =>
      if fltOk (some 0) (some u) l.toRat then .ok [pre ++ ":RANGE:AUTO:LLIM " ++ printD l]
      else .error .range
  match step1 with
  | .error e => ([], some e)
  | .ok cmds1 =>
    let step2 : Except Err (List String) :=
      match upper with
      | none => .ok cmds1
      | some up =>
        if fltOk (some 0) (some u) up.toRat then
          .ok (cmds1 ++ [pre ++ ":RANGE:AUTO:ULIM " ++ printD up])
        else .error .range
    match step2 with
    | .error e => ([], some e)
    | .ok cmds =>
      match lower, upper with
      | some l, some up =>
        if l.toRat ≠ 0 ∧ up.toRat ≠ 0 ∧ up.toRat < l.toRat then
          ([], some (.value "The lower limit must be smaller or equal to the upper limit."))
        else ([joinSep "; " cmds], none)
      | _, _ => ([joinSep "; " cmds], none)

/-- The SCPI node name selected by the function-prefix dispatch of the Setup
methods (`voltage`-prefixed functions select the VOLT sub-node, otherwise
CURR). -/
def fnScpi (fn : String) : String := if lsw fn "volt" then "VOLT" else "CURR"

/-- The level bound of the sub-source selected by the function-prefix
dispatch (`V_MAX` for voltage, `I_MAX` for current). -/
def ulimOf (fn : String) : ℚ := if lsw fn "volt" then 210 else 10

/-! ### Round-trip lemmas for the numeric text machinery -/

theorem unL_digsAux : ∀ fuel n, n ≤ fuel → unL (digsAux fuel n) = n := by
  intro fuel
  induction fuel with
  | zero => intro n h; interval_cases n; rfl
  | succ f ih =>
    intro n h
    by_cases hn : n = 0
    · subst hn; simp [digsAux, unL]
    · have hdiv : n / 10 ≤ f := by
        have : n / 10 < n := Nat.div_lt_self (Nat.pos_of_ne_zero hn) (by omega)
        omega
      simp only [digsAux, if_neg hn, unL, ih _ hdiv]
      omega

theorem unL_digs (n : Nat) : unL (digs n) = n := unL_digsAux n n le_rfl

theorem digsAux_lt : ∀ fuel n d, d ∈ digsAux fuel n → d < 10 := by
  intro fuel
  induction fuel with
  | zero => intro n d h; simp [digsAux] at h
  | succ f ih =>
    intro n d h
    by_cases hn : n = 0
    · subst hn; simp [digsAux] at h
    · simp only [digsAux, if_neg hn, List.mem_cons] at h
      rcases h with h | h
      · subst h; exact Nat.mod_lt _ (by omega)
      · exact ih _ _ h

theorem digs_lt (n d : Nat) (h : d ∈ digs n) : d < 10 := digsAux_lt n n d h

theorem chVal_digitChar (d : Nat) (h : d < 10) : chVal (digitChar d) = d := by
  interval_cases d <;> decide

theorem isDigit_digitChar (d : Nat) (h : d < 10) : (digitChar d).isDigit = true := by
  interval_cases d <;> decide

theorem natChars_digits (n : Nat) : ∀ c ∈ natChars n, c.isDigit = true := by
  intro c hc
  simp only [natChars, List.mem_reverse, List.mem_map] at hc
  obtain ⟨d, hd, rfl⟩ := hc
  exact isDigit_digitChar d (digs_lt n d hd)

theorem padTo_digits (len n : Nat) : ∀ c ∈ padTo len (natChars n), c.isDigit = true := by
  intro c hc
  simp only [padTo, List.mem_append, List.mem_replicate] at hc
  rcases hc with ⟨_, rfl⟩ | hc
  · decide
  · exact natChars_digits n c hc

theorem unL_append_zeros (l : List Nat) (j : Nat) :
    unL (l ++ List.replicate j 0) = unL l := by
  induction l with
  | nil =>
    simp only [List.nil_append]
    induction j with
    | zero => rfl
    | succ i ih => simpa [List.replicate_succ, unL] using ih
  | cons d ds ih => simp [unL, ih]

theorem charsToNat_pad_natChars (j n : Nat) :
    charsToNat (List.replicate j '0' ++ natChars n) = n := by
  have hmap : (natChars n).map chVal = (digs n).reverse := by
    simp only [natChars, List.map_reverse]
    congr 1
    rw [List.map_map]
    have : ∀ d ∈ digs n, (chVal ∘ digitChar) d = id d := by
      intro d hd
      simpa using chVal_digitChar d (digs_lt n d hd)
    rw [List.map_congr_left this, List.map_id]
  simp only [charsToNat, List.map_append, List.map_replicate, hmap]
  have h0 : chVal '0' = 0 := by decide
  rw [h0, List.reverse_append, List.reverse_reverse, List.reverse_replicate]
  rw [unL_append_zeros, unL_digs]

theorem padTo_length (len : Nat) (cs : List Char) :
    (padTo len cs).length = max len cs.length := by
  simp [padTo]
  omega

theorem breakChar_none (p : Char → Bool) :
    ∀ l : List Char, (∀ c ∈ l, p c = false) → breakChar p l = (l, none) := by
  intro l
  induction l with
  | nil => intro _; rfl
  | cons c cs ih =>
    intro h
    have hc : p c = false := h c (by simp)
    simp only [breakChar, hc, Bool.false_eq_true, if_false]
    rw [ih (fun x hx => h x (by simp [hx]))]

theorem breakChar_found (p : Char → Bool) (c0 : Char) (l2 : List Char)
    (hc0 : p c0 = true) :
    ∀ l1 : List Char, (∀ c ∈ l1, p c = false) →
      breakChar p (l1 ++ c0 :: l2) = (l1, some l2) := by
  intro l1
  induction l1 with
  | nil => intro _; simp [breakChar, hc0]
  | cons c cs ih =>
    intro h
    have hc : p c = false := h c (by simp)
    simp only [List.cons_append, breakChar, hc, Bool.false_eq_true, if_false]
    simp [ih (fun x hx => h x (by simp [hx]))]

theorem parseSign_of_digits (l1 l2 : List Char) (h : ∀ c ∈ l1, c.isDigit = true)
    (hne : l1 ≠ []) : parseSign (l1 ++ l2) = (false, l1 ++ l2) := by
  cases l1 with
  | nil => exact absurd rfl hne
  | cons c cs =>
    have hc : c.isDigit = true := h c (by simp)
    have h1 : ¬(c = '-') := by rintro rfl; exact absurd hc (by decide)
    have h2 : ¬(c = '+') := by rintro rfl; exact absurd hc (by decide)
    simp [parseSign, h1, h2]

theorem applyExp_zero (d : DecNum) : applyExp d 0 = d := by
  obtain ⟨m, k⟩ := d
  rcases Nat.eq_zero_or_pos k with hk | hk
  · subst hk; simp [applyExp]
  · simp [applyExp, Nat.le_zero]
    omega

theorem isDigit_not_eE (c : Char) (h : c.isDigit = true) : (c = 'e' || c = 'E') = false := by
  by_cases h1 : c = 'e'
  · subst h1; exact absurd h (by decide)
  · by_cases h2 : c = 'E'
    · subst h2; exact absurd h (by decide)
    · simp [h1, h2]

theorem isDigit_not_dot (c : Char) (h : c.isDigit = true) : ¬(c = '.') := by
  rintro rfl; exact absurd h (by decide)


theorem parseSign_if (sgn : Bool) (ip rest : List Char)
    (hipd : ∀ c ∈ ip, c.isDigit = true) (hipne : ip ≠ []) :
    parseSign ((if sgn then ['-'] else []) ++ (ip ++ rest)) = (sgn, ip ++ rest) := by
  cases sgn
  · simpa using parseSign_of_digits ip rest hipd hipne
  · simp [parseSign]

theorem parseDecChars_parts (sgn : Bool) (ip fp : List Char)
    (hipd : ∀ c ∈ ip, c.isDigit = true) (hfpd : ∀ c ∈ fp, c.isDigit = true)
    (hipne : ip ≠ []) :
    parseDecChars ((if sgn then ['-'] else []) ++ (ip ++ '.' :: fp)) =
      some ⟨if sgn then -(charsToNat (ip ++ fp) : Int) else (charsToNat (ip ++ fp) : Int),
            fp.length⟩ := by
  have hsign := parseSign_if sgn ip ('.' :: fp) hipd hipne
  have hEe : breakChar (fun c => c = 'e' || c = 'E') (ip ++ '.' :: fp) =
      (ip ++ '.' :: fp, none) := by
    apply breakChar_none
    intro c hc
    simp only [List.mem_append, List.mem_cons] at hc
    rcases hc with hc | hc | hc
    · exact isDigit_not_eE c (hipd c hc)
    · subst hc; decide
    · exact isDigit_not_eE c (hfpd c hc)
  have hdot : breakChar (fun c => c = '.') (ip ++ '.' :: fp) = (ip, some fp) := by
    apply breakChar_found _ _ _ (by decide)
    intro c hc
    simpa using isDigit_not_dot c (hipd c hc)
  simp only [parseDecChars]
  rw [hsign]
  simp only [hEe, hdot]
  rw [if_pos ⟨hipne, List.all_eq_true.mpr hipd, List.all_eq_true.mpr hfpd⟩]
  simp [applyExp_zero]

theorem parseDecChars_parts_int (sgn : Bool) (ip : List Char)
    (hipd : ∀ c ∈ ip, c.isDigit = true) (hipne : ip ≠ []) :
    parseDecChars ((if sgn then ['-'] else []) ++ ip) =
      some ⟨if sgn then -(charsToNat ip : Int) else (charsToNat ip : Int), 0⟩ := by
  have hsign := parseSign_if sgn ip [] hipd hipne
  rw [List.append_nil] at hsign
  have hEe : breakChar (fun c => c = 'e' || c = 'E') ip = (ip, none) :=
    breakChar_none _ _ (fun c hc => isDigit_not_eE c (hipd c hc))
  have hdot : breakChar (fun c => c = '.') ip = (ip, none) :=
    breakChar_none _ _ (fun c hc => by simpa using isDigit_not_dot c (hipd c hc))
  simp only [parseDecChars]
  rw [hsign]
  simp only [hEe, hdot]
  rw [if_pos ⟨hipne, List.all_eq_true.mpr hipd, by simp⟩]
  simp [applyExp_zero]

theorem parseDecChars_parts_neg (ip fp : List Char)
    (hipd : ∀ c ∈ ip, c.isDigit = true) (hfpd : ∀ c ∈ fp, c.isDigit = true)
    (hipne : ip ≠ []) :
    parseDecChars ('-' :: (ip ++ '.' :: fp)) =
      some ⟨-(charsToNat (ip ++ fp) : Int), fp.length⟩ := by
  have h0 := parseDecChars_parts true ip fp hipd hfpd hipne
  simpa using h0

theorem parseDecChars_parts_pos (ip fp : List Char)
    (hipd : ∀ c ∈ ip, c.isDigit = true) (hfpd : ∀ c ∈ fp, c.isDigit = true)
    (hipne : ip ≠ []) :
    parseDecChars (ip ++ '.' :: fp) =
      some ⟨(charsToNat (ip ++ fp) : Int), fp.length⟩ := by
  have h0 := parseDecChars_parts false ip fp hipd hfpd hipne
  simpa using h0

theorem parseDecChars_int_neg (ip : List Char)
    (hipd : ∀ c ∈ ip, c.isDigit = true) (hipne : ip ≠ []) :
    parseDecChars ('-' :: ip) = some ⟨-(charsToNat ip : Int), 0⟩ := by
  have h0 := parseDecChars_parts_int true ip hipd hipne
  simpa using h0

theorem parseDecChars_int_pos (ip : List Char)
    (hipd : ∀ c ∈ ip, c.isDigit = true) (hipne : ip ≠ []) :
    parseDecChars ip = some ⟨(charsToNat ip : Int), 0⟩ := by
  have h0 := parseDecChars_parts_int false ip hipd hipne
  simpa using h0

theorem parseDecChars_printDChars (d : DecNum) :
    parseDecChars (printDChars d) = some d := by
  obtain ⟨m, k⟩ := d
  simp only [printDChars]
  set cs := padTo (k + 1) (natChars m.natAbs) with hcs
  have hcsd : ∀ c ∈ cs, c.isDigit = true := padTo_digits _ _
  have hlen : k + 1 ≤ cs.length := by rw [hcs, padTo_length]; omega
  set ip := cs.take (cs.length - k) with hip
  set fp := cs.drop (cs.length - k) with hfp
  have hipfp : ip ++ fp = cs := List.take_append_drop _ _
  have hiplen : ip.length = cs.length - k := by rw [hip, List.length_take]; omega
  have hipne : ip ≠ [] := by
    intro h
    rw [h] at hiplen
    simp at hiplen
    omega
  have hfplen : fp.length = k := by rw [hfp, List.length_drop]; omega
  have hipd : ∀ c ∈ ip, c.isDigit = true := fun c hc => hcsd c (List.mem_of_mem_take hc)
  have hfpd : ∀ c ∈ fp, c.isDigit = true := fun c hc => hcsd c (List.mem_of_mem_drop hc)
  have hval : charsToNat (ip ++ fp) = m.natAbs := by
    rw [hipfp, hcs]
    simp only [padTo]
    exact charsToNat_pad_natChars _ _
  by_cases hk : k = 0
  · subst hk
    have hfpe : fp = [] := by rw [hfp]; simp
    rw [if_pos rfl, List.append_nil]
    rw [hfpe, List.append_nil] at hval
    by_cases hm : m < 0
    · rw [if_pos hm, List.singleton_append, parseDecChars_int_neg ip hipd hipne, hval]
      have hmm : -(m.natAbs : Int) = m := by omega
      rw [hmm]
    · rw [if_neg hm, List.nil_append, parseDecChars_int_pos ip hipd hipne, hval]
      have hmm : (m.natAbs : Int) = m := by omega
      rw [hmm]
  · rw [if_neg hk]
    by_cases hm : m < 0
    · rw [if_pos hm, List.singleton_append, List.cons_append,
        parseDecChars_parts_neg ip fp hipd hfpd hipne, hval, hfplen]
      have hmm : -(m.natAbs : Int) = m := by omega
      rw [hmm]
    · rw [if_neg hm, List.nil_append,
        parseDecChars_parts_pos ip fp hipd hfpd hipne, hval, hfplen]
      have hmm : (m.natAbs : Int) = m := by omega
      rw [hmm]

theorem parseDec_printD (d : DecNum) : parseDec (printD d) = some d :=
  parseDecChars_printDChars d

/-! ### Codec-level encode/decode lemmas -/

theorem toRat_int (n : Int) : DecNum.toRat ⟨n, 0⟩ = (n : ℚ) := by
  simp [DecNum.toRat, Rat.mkRat_one]

theorem encodeAtom_int_ok (lo hi : Option Int) (n : Int) (h : intOk lo hi n = true) :
    encodeAtom (.int lo hi) (.ai n) = .ok (intStr n) := by
  simp [encodeAtom, h]

theorem encodeAtom_int_range (lo hi : Option Int) (n : Int) (h : intOk lo hi n = false) :
    encodeAtom (.int lo hi) (.ai n) = .error .range := by
  simp [encodeAtom, h]

theorem encodeAtom_flt_ok (lo hi : Option ℚ) (d : DecNum) (h : fltOk lo hi d.toRat = true) :
    encodeAtom (.flt lo hi) (.ad d) = .ok (printD d) := by
  simp [encodeAtom, h]

theorem encodeAtom_flt_range (lo hi : Option ℚ) (d : DecNum)
    (h : fltOk lo hi d.toRat = false) :
    encodeAtom (.flt lo hi) (.ad d) = .error .range := by
  simp [encodeAtom, h]

theorem decodeAtom_int_roundtrip (lo hi : Option Int) (n : Int)
    (h : intOk lo hi n = true) :
    decodeAtom (.int lo hi) (intStr n) = .ok (.ai n) := by
  have hp : parseDec (intStr n) = some ⟨n, 0⟩ := parseDec_printD ⟨n, 0⟩
  simp only [decodeAtom, hp, toRat_int]
  rw [if_pos (Rat.den_intCast n), Rat.num_intCast, if_pos h]

theorem decodeAtom_flt_roundtrip (lo hi : Option ℚ) (d : DecNum)
    (h : fltOk lo hi d.toRat = true) :
    decodeAtom (.flt lo hi) (printD d) = .ok (.aq d.toRat) := by
  have hp : parseDec (printD d) = some d := parseDec_printD d
  simp only [decodeAtom, hp]
  rw [if_pos h]

/-! ### Write-plumbing lemmas -/

theorem wcmd_ok {c : Cmd} {v : Val} {msg : String} (h : c.writeMsg v = .ok msg)
    (ws : List String) : wcmd c v (ws, none) = (ws ++ [msg], none) := by
  simp [wcmd, h]

theorem wcmd_err {c : Cmd} {v : Val} {e : Err} (h : c.writeMsg v = .error e)
    (ws : List String) : wcmd c v (ws, none) = (ws, some e) := by
  simp [wcmd, h]

theorem writeMsg_atom {c : Cmd} {hdr : String} {a : ACodec} {av : AVal} {data : String}
    (hw : c.write = some hdr) (ht : c.type = some (.atom a))
    (he : encodeAtom a av = .ok data) :
    c.writeMsg (.a av) = .ok (hdr ++ " " ++ data) := by
  simp [Cmd.writeMsg, hw, cmdEncode, ht, valEncode, he, Except.map]

theorem writeMsg_atom_err {c : Cmd} {hdr : String} {a : ACodec} {av : AVal} {e : Err}
    (hw : c.write = some hdr) (ht : c.type = some (.atom a))
    (he : encodeAtom a av = .error e) :
    c.writeMsg (.a av) = .error e := by
  simp [Cmd.writeMsg, hw, cmdEncode, ht, valEncode, he, Except.map]

/-! ### Stream length lemmas -/

theorem exMapM_length (f : String → Except Err AVal) :
    ∀ ts vs, exMapM f ts = .ok vs → vs.length = ts.length := by
  intro ts
  induction ts with
  | nil => intro vs h; simp only [exMapM] at h; cases h; rfl
  | cons t ts ih =>
    intro vs h
    simp only [exMapM] at h
    cases hf : f t with
    | error e => rw [hf] at h; cases h
    | ok v =>
      rw [hf] at h
      cases hrec : exMapM f ts with
      | error e => rw [hrec] at h; cases h
      | ok vs0 =>
        rw [hrec] at h
        cases h
        simp [ih vs0 hrec]

theorem splitComma_ne_nil : ∀ cs : List Char, splitComma cs ≠ [] := by
  intro cs
  induction cs with
  | nil => simp [splitComma]
  | cons c rest ih =>
    simp only [splitComma]
    cases h : splitComma rest with
    | nil => simp
    | cons hd tl =>
      by_cases hc : c = ',' <;> simp [hc]

theorem splitComma_length (cs : List Char) :
    (splitComma cs).length = cs.count ',' + 1 := by
  induction cs with
  | nil => simp [splitComma]
  | cons c rest ih =>
    simp only [splitComma]
    cases h : splitComma rest with
    | nil => exact absurd h (splitComma_ne_nil rest)
    | cons hd tl =>
      rw [h] at ih
      simp only [List.length_cons] at ih
      by_cases hc : c = ','
      · subst hc
        simp [List.count_cons_self]
        omega
      · simp [hc, List.count_cons_of_ne (Ne.symm hc)]
        omega

/-- C4: every Command constructed by the K2400 and B2900 device drivers
(directly or via the `_command` helper, including the query-only commands and
the write-only mode `wo` commands of a B2900 ALL-action trigger node) retains
at least one of its query and write templates: at most one of the two is
absent, never both. -/
theorem C4_command_template_invariant :
    (k2400AllCmds ++ b2900AllCmds).all
      (fun c => c.query.isSome || c.write.isSome) = true := by
  decide

/-- C7: a Command without a query template fails to read with
`NotReadableError`: the write-only B2900 `SourceSweep.points` command, and
every command of a B2900 `Triggering` node constructed for the ALL action
(whose commands are all built with mode `wo`), for every channel, layer and
transport response. -/
theorem C7_not_readable :
    (∀ (ch : Nat) (resp : String),
      (b2900SourceSweepPoints ch).read resp = .error .notReadable)
    ∧ (∀ (ch : Nat) (l : String), ∀ c ∈ b2900TriggeringCmds ch l "ALL",
        ∀ resp : String, c.read resp = .error .notReadable) := by
  constructor
  · intro ch resp
    simp [b2900SourceSweepPoints, mkCmd, Cmd.read]
  · intro ch l c hc resp
    simp only [b2900TriggeringCmds, List.mem_cons, List.mem_singleton,
      List.not_mem_nil, or_false] at hc
    rcases hc with rfl | rfl | rfl | rfl | rfl | rfl | rfl | rfl <;>
      simp [mkCmd, Cmd.read, b2900TrigCount, b2900TrigDelay, b2900TrigSourceCmd,
        b2900TrigTimer]

/-- C7 witness: reading the channel-1 write-only sweep-points command and the
first command of the channel-1 TRIG-layer ALL-action trigger node both fail
with `NotReadableError`. -/
theorem C7_not_readable_witness :
    (b2900SourceSweepPoints 1).read "7" = .error .notReadable
    ∧ (b2900TrigCount 1 "TRIG" "ALL" "wo").read "7" = .error .notReadable := by
  refine ⟨C7_not_readable.1 1 "7", ?_⟩
  exact C7_not_readable.2 1 "TRIG" (b2900TrigCount 1 "TRIG" "ALL" "wo") (by decide) "7"

/-- C10: the B2900 `Triggering` constructor raises `ValueError` for every
layer outside TRIG/ARM/ALL, but for every action outside ACQ/TRAN/ALL it
completes normally without raising — the action check merely formats a message
string and discards it. -/
theorem C10_triggering_layer_action_validation :
    (∀ (ch : Nat) (l a : String), l ≠ "TRIG" → l ≠ "ARM" → l ≠ "ALL" →
      b2900TriggeringInit ch l a = .error (.value ("Unknown layer: " ++ l)))
    ∧ (∀ (ch : Nat) (l a : String), (l = "TRIG" ∨ l = "ARM" ∨ l = "ALL") →
        a ≠ "ACQ" → a ≠ "TRAN" → a ≠ "ALL" →
        (b2900TriggeringInit ch l a).isOk = true) := by
  constructor
  · intro ch l a h1 h2 h3
    simp [b2900TriggeringInit, h1, h2, h3]
  · intro ch l a hl _ _ _
    simp [b2900TriggeringInit, hl, Except.isOk, Except.toBool]

/-- C10 witness: layer `FOO` is rejected with `ValueError`, while the
unknown action `BOGUS` on the valid layer TRIG is silently accepted. -/
theorem C10_triggering_witness :
    b2900TriggeringInit 1 "FOO" "ALL" = .error (.value "Unknown layer: FOO")
    ∧ (b2900TriggeringInit 1 "TRIG" "BOGUS").isOk = true := by
  constructor
  · exact C10_triggering_layer_action_validation.1 1 "FOO" "ALL"
      (by decide) (by decide) (by decide)
  · exact C10_triggering_layer_action_validation.2 1 "TRIG" "BOGUS"
      (Or.inl rfl) (by decide) (by decide) (by decide)

theorem intOk_true (lo hi n : Int) (h1 : lo ≤ n) (h2 : n ≤ hi) :
    intOk (some lo) (some hi) n = true := by
  simp [intOk, leOptI, geOptI, h1, h2]

theorem fltOk_true (lo hi : Option ℚ) (q : ℚ) (h1 : ∀ l ∈ lo, l ≤ q)
    (h2 : ∀ h ∈ hi, q ≤ h) : fltOk lo hi q = true := by
  cases lo <;> cases hi <;>
    simp_all [fltOk, leOpt, geOpt]

/-- C5: for a bounded `Integer` or `Float` codec (declared `[min, max]`
bounds, as every bounded numeric codec the drivers declare), encoding any
in-range value succeeds and decoding the encoded token returns exactly the
original value, while encoding any out-of-range value fails with
`RangeError`. -/
theorem C5_bounded_numeric_roundtrip :
    (∀ lo hi n : Int, lo ≤ n → n ≤ hi →
      encodeAtom (.int (some lo) (some hi)) (.ai n) = .ok (intStr n)
      ∧ decodeAtom (.int (some lo) (some hi)) (intStr n) = .ok (.ai n))
    ∧ (∀ lo hi n : Int, ¬(lo ≤ n ∧ n ≤ hi) →
        encodeAtom (.int (some lo) (some hi)) (.ai n) = .error .range)
    ∧ (∀ (lo hi : ℚ) (d : DecNum), lo ≤ d.toRat → d.toRat ≤ hi →
        encodeAtom (.flt (some lo) (some hi)) (.ad d) = .ok (printD d)
        ∧ decodeAtom (.flt (some lo) (some hi)) (printD d) = .ok (.aq d.toRat))
    ∧ (∀ (lo hi : ℚ) (d : DecNum), ¬(lo ≤ d.toRat ∧ d.toRat ≤ hi) →
        encodeAtom (.flt (some lo) (some hi)) (.ad d) = .error .range) := by
  refine ⟨?_, ?_, ?_, ?_⟩
  · intro lo hi n h1 h2
    have h := intOk_true lo hi n h1 h2
    exact ⟨encodeAtom_int_ok _ _ _ h, decodeAtom_int_roundtrip _ _ _ h⟩
  · intro lo hi n h
    have hfalse : intOk (some lo) (some hi) n = false := by
      simp only [intOk, leOptI, geOptI]
      rcases not_and_or.mp h with h1 | h1 <;> simp [h1]
    exact encodeAtom_int_range _ _ _ hfalse
  · intro lo hi d h1 h2
    have h : fltOk (some lo) (some hi) d.toRat = true := by
      simp [fltOk, leOpt, geOpt, h1, h2]
    exact ⟨encodeAtom_flt_ok _ _ _ h, decodeAtom_flt_roundtrip _ _ _ h⟩
  · intro lo hi d h
    have hfalse : fltOk (some lo) (some hi) d.toRat = false := by
      simp only [fltOk, leOpt, geOpt]
      rcases not_and_or.mp h with h1 | h1 <;> simp [h1]
    exact encodeAtom_flt_range _ _ _ hfalse

/-- C5 witness: for the trigger-count codec `Integer(1, 2500)`, 101 round
trips and 0 is rejected with `RangeError`; for the level codec
`Float(-210, 210)`, -0.1 round trips and 211.0 is rejected. -/
theorem C5_bounded_numeric_roundtrip_witness :
    (encodeAtom (.int (some 1) (some 2500)) (.ai 101) = .ok (intStr 101)
      ∧ decodeAtom (.int (some 1) (some 2500)) (intStr 101) = .ok (.ai 101))
    ∧ encodeAtom (.int (some 1) (some 2500)) (.ai 0) = .error .range
    ∧ (encodeAtom (.flt (some (-210)) (some 210)) (.ad ⟨-1, 1⟩) = .ok (printD ⟨-1, 1⟩)
      ∧ decodeAtom (.flt (some (-210)) (some 210)) (printD ⟨-1, 1⟩)
          = .ok (.aq (DecNum.toRat ⟨-1, 1⟩)))
    ∧ encodeAtom (.flt (some (-210)) (some 210)) (.ad ⟨2110, 1⟩) = .error .range :=
  ⟨C5_bounded_numeric_roundtrip.1 1 2500 101 (by decide) (by decide),
   C5_bounded_numeric_roundtrip.2.1 1 2500 0 (by decide),
   C5_bounded_numeric_roundtrip.2.2.1 (-210) 210 ⟨-1, 1⟩ (by decide) (by decide),
   C5_bounded_numeric_roundtrip.2.2.2 (-210) 210 ⟨2110, 1⟩ (by decide)⟩

/-- C6: decoding with a `Stream` codec returns exactly one value per
comma-separated field of the response — the result length is the delimiter
count plus one, for every inner codec and every response that decodes; with an
inner `Float`, `"1.0,2.0,3.0"` decodes to the three values 1, 2, 3 and
`"5.0"` to the single value 5. -/
theorem C6_stream_decode_length :
    (∀ (a : ACodec) (s : String) (vs : List AVal),
      valDecode (.stream a) s = .ok (.l vs) → vs.length = s.data.count ',' + 1)
    ∧ valDecode (.stream (.flt none none)) "1.0,2.0,3.0" = .ok (.l [.aq 1, .aq 2, .aq 3])
    ∧ valDecode (.stream (.flt none none)) "5.0" = .ok (.l [.aq 5]) := by
  refine ⟨?_, by rfl, by rfl⟩
  intro a s vs h
  simp only [valDecode] at h
  cases hm : exMapM (decodeAtom a) ((splitComma s.data).map (fun l => (⟨l⟩ : String))) with
  | error e => rw [hm] at h; simp [Except.map] at h
  | ok vs0 =>
    rw [hm] at h
    simp only [Except.map, Except.ok.injEq, Val.l.injEq] at h
    subst h
    have hlen := exMapM_length _ _ _ hm
    rw [hlen, List.length_map, splitComma_length]

/-- C6 witness: the general length law applied to the concrete response
`"1.0,2.0,3.0"`, which has two delimiters and decodes to three values. -/
theorem C6_stream_decode_length_witness :
    ([AVal.aq 1, AVal.aq 2, AVal.aq 3].length = "1.0,2.0,3.0".data.count ',' + 1) :=
  C6_stream_decode_length.1 (.flt none none) "1.0,2.0,3.0" [.aq 1, .aq 2, .aq 3]
    (by rfl)

/-- C2: `Setup.sense` on the K2400 and the B2900 raises `ValueError` whenever
`auto_range` is true and an explicit `range_` is passed, for every function
string, every channel (the K2400 checks before resolving the channel; the
B2900 resolves one of its valid channels first) and all other arguments. -/
theorem C2_sense_auto_range_conflict :
    (∀ (fn : String) (r0 : DecNum) (np comp it : Option DecNum) (fw : Option Bool)
        (ch : Nat),
      k2400SetupSense fn (some true) (some r0) np comp fw it ch =
        ([], some (.value "Cannot enable auto_range and set range at the same time.")))
    ∧ (∀ (fn : String) (r0 : DecNum) (np comp it : Option DecNum) (fw : Option Bool)
        (ch : Nat), ch = 1 ∨ ch = 2 →
      b2900SetupSense fn (some true) (some r0) np comp fw it ch =
        ([], some (.value "Cannot enable auto_range and set range at the same time."))) := by
  constructor
  · intro fn r0 np comp it fw ch
    simp [k2400SetupSense]
  · intro fn r0 np comp it fw ch _
    simp [b2900SetupSense]

/-- C2 witness: `setup.sense('voltage', auto_range=True, range_=0.1)` raises
`ValueError` on both devices. -/
theorem C2_sense_auto_range_conflict_witness :
    k2400SetupSense "voltage" (some true) (some ⟨1, 1⟩) none none none none 1 =
      ([], some (.value "Cannot enable auto_range and set range at the same time."))
    ∧ b2900SetupSense "voltage" (some true) (some ⟨1, 1⟩) none none none none 1 =
      ([], some (.value "Cannot enable auto_range and set range at the same time.")) :=
  ⟨C2_sense_auto_range_conflict.1 "voltage" ⟨1, 1⟩ none none none none 1,
   C2_sense_auto_range_conflict.2 "voltage" ⟨1, 1⟩ none none none none 1 (Or.inl rfl)⟩

/-- C3: `Setup.sense` on the K2400 and the B2900 raises `ValueError` whenever
both `nplc` and `integration_time` are passed, for every function string,
every channel and all other arguments (when the auto-range conflict is also
present, the earlier check raises first — still a `ValueError`). -/
theorem C3_sense_nplc_integration_conflict :
    (∀ (fn : String) (ar : Option Bool) (r comp : Option DecNum) (np0 it0 : DecNum)
        (fw : Option Bool) (ch : Nat),
      ∃ msg, k2400SetupSense fn ar r (some np0) comp fw (some it0) ch =
        ([], some (.value msg)))
    ∧ (∀ (fn : String) (ar : Option Bool) (r comp : Option DecNum) (np0 it0 : DecNum)
        (fw : Option Bool) (ch : Nat), ch = 1 ∨ ch = 2 →
      ∃ msg, b2900SetupSense fn ar r (some np0) comp fw (some it0) ch =
        ([], some (.value msg))) := by
  constructor
  · intro fn ar r comp np0 it0 fw ch
    by_cases hc : ((ar.getD false) && r.isSome) = true
    · exact ⟨"Cannot enable auto_range and set range at the same time.",
        by simp [k2400SetupSense, hc]⟩
    · exact ⟨"nplc and integration_time are mutually exclusive.",
        by simp [k2400SetupSense, hc]⟩
  · intro fn ar r comp np0 it0 fw ch _
    by_cases hc : ((ar.getD false) && r.isSome) = true
    · exact ⟨"Cannot enable auto_range and set range at the same time.",
        by simp [b2900SetupSense, hc]⟩
    · exact ⟨"nplc and integration_time are mutually exclusive.",
        by simp [b2900SetupSense, hc]⟩

/-- C3 witness: passing both `nplc=1.0` and `integration_time=0.02` raises
`ValueError` on both devices. -/
theorem C3_sense_nplc_integration_conflict_witness :
    (∃ msg, k2400SetupSense "voltage" none none (some ⟨1, 0⟩) none none (some ⟨2, 2⟩) 1 =
      ([], some (.value msg)))
    ∧ (∃ msg, b2900SetupSense "voltage" none none (some ⟨1, 0⟩) none none (some ⟨2, 2⟩) 1 =
      ([], some (.value msg))) :=
  ⟨C3_sense_nplc_integration_conflict.1 "voltage" none none none ⟨1, 0⟩ ⟨2, 2⟩ none 1,
   C3_sense_nplc_integration_conflict.2 "voltage" none none none ⟨1, 0⟩ ⟨2, 2⟩ none 1
     (Or.inl rfl)⟩

/-- C9: assigning `auto_range_limit = (lower, upper)` on a K2400 or B2900
`SubSense` node with both limits present, nonzero and within the codec
bounds, and lower above upper, raises `ValueError` before any transport write
is issued (the write list stays empty); when either limit is absent or equal
to zero, the comparison is skipped and the (joined) write is issued. -/
theorem C9_auto_range_limit_order :
    (∀ (ch : Nat) (f : String) (u : ℚ) (l up : DecNum),
      0 ≤ l.toRat → l.toRat ≤ u → 0 ≤ up.toRat → up.toRat ≤ u →
      l.toRat ≠ 0 → up.toRat ≠ 0 → up.toRat < l.toRat →
      k2400AutoRangeLimitSet ch f u (some l) (some up) =
        ([], some (.value "The lower limit must be smaller or equal to the upper limit."))
      ∧ b2900AutoRangeLimitSet ch f u (some l) (some up) =
        ([], some (.value "The lower limit must be smaller or equal to the upper limit.")))
    ∧ (∀ (ch : Nat) (f : String) (u : ℚ) (lower upper : Option DecNum),
      (∀ l ∈ lower, 0 ≤ l.toRat ∧ l.toRat ≤ u) →
      (∀ up ∈ upper, 0 ≤ up.toRat ∧ up.toRat ≤ u) →
      (lower = none ∨ upper = none ∨ (∃ l ∈ lower, l.toRat = 0)
        ∨ (∃ up ∈ upper, up.toRat = 0)) →
      ((k2400AutoRangeLimitSet ch f u lower upper).2 = none
        ∧ (k2400AutoRangeLimitSet ch f u lower upper).1.length = 1)
      ∧ ((b2900AutoRangeLimitSet ch f u lower upper).2 = none
        ∧ (b2900AutoRangeLimitSet ch f u lower upper).1.length = 1)) := by
  constructor
  · intro ch f u l up h1 h2 h3 h4 h5 h6 h7
    have hfl : fltOk (some 0) (some u) l.toRat = true := by simp [fltOk, leOpt, geOpt, h1, h2]
    have hfu : fltOk (some 0) (some u) up.toRat = true := by
      simp [fltOk, leOpt, geOpt, h3, h4]
    constructor <;>
      simp [k2400AutoRangeLimitSet, b2900AutoRangeLimitSet, hfl, hfu, h5, h6, h7]
  · intro ch f u lower upper hlo hup hskip
    have hcond : ∀ l up : DecNum, lower = some l → upper = some up →
        ¬(l.toRat ≠ 0 ∧ up.toRat ≠ 0 ∧ up.toRat < l.toRat) := by
      intro l up hl hu
      rcases hskip with h | h | ⟨l0, hl0, hz⟩ | ⟨up0, hu0, hz⟩
      · rw [hl] at h; cases h
      · rw [hu] at h; cases h
      · rw [hl] at hl0; cases hl0; intro hcon; exact hcon.1 hz
      · rw [hu] at hu0; cases hu0; intro hcon; exact hcon.2.1 hz
    rcases hl : lower with _ | l <;> rcases hu : upper with _ | up
    · simp [k2400AutoRangeLimitSet, b2900AutoRangeLimitSet]
    · have h4 := hup up (by rw [hu]; rfl)
      have hfu : fltOk (some 0) (some u) up.toRat = true := by
        simp [fltOk, leOpt, geOpt, h4.1, h4.2]
      simp [k2400AutoRangeLimitSet, b2900AutoRangeLimitSet, hfu]
    · have h4 := hlo l (by rw [hl]; rfl)
      have hfl : fltOk (some 0) (some u) l.toRat = true := by
        simp [fltOk, leOpt, geOpt, h4.1, h4.2]
      simp [k2400AutoRangeLimitSet, b2900AutoRangeLimitSet, hfl]
    · have h4 := hlo l (by rw [hl]; rfl)
      have h5 := hup up (by rw [hu]; rfl)
      have hfl : fltOk (some 0) (some u) l.toRat = true := by
        simp [fltOk, leOpt, geOpt, h4.1, h4.2]
      have hfu : fltOk (some 0) (some u) up.toRat = true := by
        simp [fltOk, leOpt, geOpt, h5.1, h5.2]
      have hc := hcond l up hl hu
      simp [k2400AutoRangeLimitSet, b2900AutoRangeLimitSet, hfl, hfu, hc]

/-- C9 witness: `(5.0, 1.0)` raises `ValueError` with no write on both
devices; `(0.0, 1.0)` skips the comparison and issues one write. -/
theorem C9_auto_range_limit_order_witness :
    (k2400AutoRangeLimitSet 1 "VOLT" 210 (some ⟨5, 0⟩) (some ⟨1, 0⟩) =
        ([], some (.value "The lower limit must be smaller or equal to the upper limit."))
      ∧ b2900AutoRangeLimitSet 1 "VOLT" 210 (some ⟨5, 0⟩) (some ⟨1, 0⟩) =
        ([], some (.value "The lower limit must be smaller or equal to the upper limit.")))
    ∧ ((k2400AutoRangeLimitSet 1 "VOLT" 210 (some ⟨0, 0⟩) (some ⟨1, 0⟩)).2 = none
        ∧ (k2400AutoRangeLimitSet 1 "VOLT" 210 (some ⟨0, 0⟩) (some ⟨1, 0⟩)).1.length = 1)
    ∧ ((b2900AutoRangeLimitSet 1 "VOLT" 210 (some ⟨0, 0⟩) (some ⟨1, 0⟩)).2 = none
        ∧ (b2900AutoRangeLimitSet 1 "VOLT" 210 (some ⟨0, 0⟩) (some ⟨1, 0⟩)).1.length = 1) := by
  refine ⟨C9_auto_range_limit_order.1 1 "VOLT" 210 ⟨5, 0⟩ ⟨1, 0⟩ (by decide) (by decide)
    (by decide) (by decide) (by decide) (by decide) (by decide), ?_⟩
  have h := C9_auto_range_limit_order.2 1 "VOLT" 210 (some ⟨0, 0⟩) (some ⟨1, 0⟩)
    (by intro l hl; cases hl; constructor <;> decide)
    (by intro up hu; cases hu; constructor <;> decide)
    (Or.inr (Or.inr (Or.inl ⟨⟨0, 0⟩, rfl, by decide⟩)))
  exact ⟨h.1, h.2⟩

theorem writeMsg_flt (c : Cmd) (hdr hdrsp : String) (lo hi : Option ℚ) (d : DecNum)
    (hw : c.write = some hdr) (ht : c.type = some (.atom (.flt lo hi)))
    (hs : hdr ++ " " = hdrsp) (hok : fltOk lo hi d.toRat = true) :
    c.writeMsg (.a (.ad d)) = .ok (hdrsp ++ printD d) := by
  subst hs
  exact writeMsg_atom hw ht (encodeAtom_flt_ok lo hi d hok)

theorem writeMsg_int (c : Cmd) (hdr hdrsp : String) (lo hi : Option Int) (n : Int)
    (hw : c.write = some hdr) (ht : c.type = some (.atom (.int lo hi)))
    (hs : hdr ++ " " = hdrsp) (hok : intOk lo hi n = true) :
    c.writeMsg (.a (.ai n)) = .ok (hdrsp ++ intStr n) := by
  subst hs
  exact writeMsg_atom hw ht (encodeAtom_int_ok lo hi n hok)

/-- C8: with `integration_time=t` (and `nplc=None`), the K2400 `Setup.sense`
writes `t * 50` (seconds converted to power-line cycles at 50 Hz mains) to
the sub-sense `nplc` command, whereas the B2900 writes `t` unchanged to the
sub-sense `aperture` command — for both functions, every valid channel, and
every `t` whose written value lies within the target codec's bounds. -/
theorem C8_integration_time_conversion :
    (∀ (t : DecNum) (fn : String), (fn = "voltage" ∨ fn = "current") →
      mkRat 1 100 ≤ (dMul50 t).toRat → (dMul50 t).toRat ≤ 10 →
      k2400SetupSense fn none none none none none (some t) 1 =
        ([(if fn = "voltage" then ":SENS1:VOLT:NPLC " else ":SENS1:CURR:NPLC ")
            ++ printD (dMul50 t)], none))
    ∧ (∀ (t : DecNum) (fn : String) (ch : Nat), (fn = "voltage" ∨ fn = "current") →
        (ch = 1 ∨ ch = 2) →
        mkRat 8 1000000 ≤ t.toRat → t.toRat ≤ 2 →
        b2900SetupSense fn none none none none none (some t) ch =
          ([(":SENS" ++ natStr ch ++ ":"
              ++ (if fn = "voltage" then "VOLT" else "CURR") ++ ":APER ")
              ++ printD t], none)) := by
  constructor
  · intro t fn hfn h1 h2
    have hok : fltOk (some (mkRat 1 100)) (some 10) (dMul50 t).toRat = true := by
      simp [fltOk, leOpt, geOpt, h1, h2]
    rcases hfn with rfl | rfl
    · have hmsg := writeMsg_flt (k2400SubSenseNplc 1 "VOLT") ":SENS1:VOLT:NPLC"
        ":SENS1:VOLT:NPLC " _ _ (dMul50 t) (by decide) (by decide) (by decide) hok
      have hv : lsw "voltage" "volt" = true := by decide
      simp [k2400SetupSense, wopt, hv, wcmd, hmsg]
    · have hmsg := writeMsg_flt (k2400SubSenseNplc 1 "CURR") ":SENS1:CURR:NPLC"
        ":SENS1:CURR:NPLC " _ _ (dMul50 t) (by decide) (by decide) (by decide) hok
      have hv1 : lsw "current" "volt" = false := by decide
      have hv2 : lsw "current" "curr" = true := by decide
      simp [k2400SetupSense, wopt, hv1, hv2, wcmd, hmsg]
  · intro t fn ch hfn hch h1 h2
    have hok : fltOk (some (mkRat 8 1000000)) (some 2) t.toRat = true := by
      simp [fltOk, leOpt, geOpt, h1, h2]
    rcases hfn with rfl | rfl <;> rcases hch with rfl | rfl
    · have hmsg := writeMsg_flt (b2900SubSenseAperture 1 "VOLT") ":SENS1:VOLT:APER"
        (":SENS" ++ natStr 1 ++ ":" ++ "VOLT" ++ ":APER ") _ _ t
        (by decide) (by decide) (by decide) hok
      have hv : lsw "voltage" "volt" = true := by decide
      simp [b2900SetupSense, wopt, hv, wcmd, hmsg]
    · have hmsg := writeMsg_flt (b2900SubSenseAperture 2 "VOLT") ":SENS2:VOLT:APER"
        (":SENS" ++ natStr 2 ++ ":" ++ "VOLT" ++ ":APER ") _ _ t
        (by decide) (by decide) (by decide) hok
      have hv : lsw "voltage" "volt" = true := by decide
      simp [b2900SetupSense, wopt, hv, wcmd, hmsg]
    · have hmsg := writeMsg_flt (b2900SubSenseAperture 1 "CURR") ":SENS1:CURR:APER"
        (":SENS" ++ natStr 1 ++ ":" ++ "CURR" ++ ":APER ") _ _ t
        (by decide) (by decide) (by decide) hok
      have hv1 : lsw "current" "volt" = false := by decide
      have hv2 : lsw "current" "curr" = true := by decide
      simp [b2900SetupSense, wopt, hv1, hv2, wcmd, hmsg]
    · have hmsg := writeMsg_flt (b2900SubSenseAperture 2 "CURR") ":SENS2:CURR:APER"
        (":SENS" ++ natStr 2 ++ ":" ++ "CURR" ++ ":APER ") _ _ t
        (by decide) (by decide) (by decide) hok
      have hv1 : lsw "current" "volt" = false := by decide
      have hv2 : lsw "current" "curr" = true := by decide
      simp [b2900SetupSense, wopt, hv1, hv2, wcmd, hmsg]

/-- C8 witness: `integration_time=0.02` writes nplc `1.00` (0.02 × 50) on
the K2400 and aperture `0.02` on the B2900. -/
theorem C8_integration_time_conversion_witness :
    k2400SetupSense "voltage" none none none none none (some ⟨2, 2⟩) 1 =
      ([(if "voltage" = "voltage" then ":SENS1:VOLT:NPLC " else ":SENS1:CURR:NPLC ")
          ++ printD (dMul50 ⟨2, 2⟩)], none)
    ∧ b2900SetupSense "voltage" none none none none none (some ⟨2, 2⟩) 1 =
      ([(":SENS" ++ natStr 1 ++ ":"
          ++ (if "voltage" = "voltage" then "VOLT" else "CURR") ++ ":APER ")
          ++ printD ⟨2, 2⟩], none) :=
  ⟨C8_integration_time_conversion.1 ⟨2, 2⟩ "voltage" (Or.inl rfl) (by decide) (by decide),
   C8_integration_time_conversion.2 ⟨2, 2⟩ "voltage" 1 (Or.inl rfl) (Or.inl rfl)
     (by decide) (by decide)⟩

/-- C1: for both functions, every valid channel, and every points value the
trigger-count codec accepts (with start/stop within the selected sub-source's
level bounds), `Setup.sweep_source(function, start, stop, points)` on the
K2400 and B2900 writes the channel's trigger count command with `points` and
the selected sub-source's mode command with `sweep`, and writes `start` and
`stop` to the sweep start/stop commands (on the K2400 the whole call also
completes without error; on the B2900 a points value beyond the sub-source
points codec fails afterwards, with these writes already issued). -/
theorem C1_sweep_source_count_and_mode :
    (∀ (fn : String) (start stop : DecNum) (points : Int),
      (fn = "voltage" ∨ fn = "current") →
      1 ≤ points → points ≤ 2500 →
      -ulimOf fn ≤ start.toRat → start.toRat ≤ ulimOf fn →
      -ulimOf fn ≤ stop.toRat → stop.toRat ≤ ulimOf fn →
      (k2400SweepSource fn start stop points 1).2 = none
      ∧ (":TRIG:COUN " ++ intStr points) ∈ (k2400SweepSource fn start stop points 1).1
      ∧ (":SOUR1:" ++ fnScpi fn ++ ":MODE SWE")
          ∈ (k2400SweepSource fn start stop points 1).1
      ∧ ((":SOUR1:" ++ fnScpi fn ++ ":STAR ") ++ printD start)
          ∈ (k2400SweepSource fn start stop points 1).1
      ∧ ((":SOUR1:" ++ fnScpi fn ++ ":STOP ") ++ printD stop)
          ∈ (k2400SweepSource fn start stop points 1).1)
    ∧ (∀ (fn : String) (start stop : DecNum) (points : Int) (ch : Nat),
      (fn = "voltage" ∨ fn = "current") → (ch = 1 ∨ ch = 2) →
      1 ≤ points → points ≤ 100000 →
      -ulimOf fn ≤ start.toRat → start.toRat ≤ ulimOf fn →
      -ulimOf fn ≤ stop.toRat → stop.toRat ≤ ulimOf fn →
      ((":TRIG" ++ natStr ch ++ ":ALL:COUN ") ++ intStr points)
          ∈ (b2900SweepSource fn start stop points ch).1
      ∧ (":SOUR" ++ natStr ch ++ ":" ++ fnScpi fn ++ ":MODE SWE")
          ∈ (b2900SweepSource fn start stop points ch).1
      ∧ ((":SOUR" ++ natStr ch ++ ":" ++ fnScpi fn ++ ":STAR ") ++ printD start)
          ∈ (b2900SweepSource fn start stop points ch).1
      ∧ ((":SOUR" ++ natStr ch ++ ":" ++ fnScpi fn ++ ":STOP ") ++ printD stop)
          ∈ (b2900SweepSource fn start stop points ch).1) := by
  constructor
  · intro fn start stop points hfn hp1 hp2 hs1 hs2 ht1 ht2
    have hiok : intOk (some 1) (some 2500) points = true := intOk_true _ _ _ hp1 hp2
    rcases hfn with rfl | rfl
    · have hv1 : lsw "voltage" "volt" = true := by decide
      have hv2 : lsw "voltage" "curr" = false := by decide
      have hsok : fltOk (some (-210)) (some 210) start.toRat = true := by
        rw [show ulimOf "voltage" = 210 from by decide] at hs1 hs2
        simp [fltOk, leOpt, geOpt, hs1, hs2]
      have htok : fltOk (some (-210)) (some 210) stop.toRat = true := by
        rw [show ulimOf "voltage" = 210 from by decide] at ht1 ht2
        simp [fltOk, leOpt, geOpt, ht1, ht2]
      have hm1 := writeMsg_int (k2400TrigCount "TRIG") ":TRIG:COUN" ":TRIG:COUN " _ _
        points (by decide) (by decide) (by decide) hiok
      have hm2 : (k2400SourceFuncMode 1).writeMsg (.a (.as "voltage")) =
          .ok ":SOUR1:FUNC:MODE VOLT" := by decide
      have hm3 : (k2400SubSourceMode 1 "VOLT").writeMsg (.a (.as "sweep")) =
          .ok (":SOUR1:" ++ fnScpi "voltage" ++ ":MODE SWE") := by decide
      have hm4 := writeMsg_flt (k2400SubSourceStart 1 "VOLT" k2400VMax) ":SOUR1:VOLT:STAR"
        (":SOUR1:" ++ fnScpi "voltage" ++ ":STAR ") (some (-210)) (some 210) start
        (by decide) (by decide) (by decide) hsok
      have hm5 := writeMsg_flt (k2400SubSourceStop 1 "VOLT" k2400VMax) ":SOUR1:VOLT:STOP"
        (":SOUR1:" ++ fnScpi "voltage" ++ ":STOP ") (some (-210)) (some 210) stop
        (by decide) (by decide) (by decide) htok
      have hm6 := writeMsg_int (k2400SubSourcePoints 1) ":SOUR1:POIN" ":SOUR1:POIN " _ _
        points (by decide) (by decide) (by decide) hiok
      simp [k2400SweepSource, k2400SetupTriggering, wopt, wcmd, hv1, hv2,
        hm1, hm2, hm3, hm4, hm5, hm6]
    · have hv1 : lsw "current" "volt" = false := by decide
      have hv2 : lsw "current" "curr" = true := by decide
      have hsok : fltOk (some (-10)) (some 10) start.toRat = true := by
        rw [show ulimOf "current" = 10 from by decide] at hs1 hs2
        simp [fltOk, leOpt, geOpt, hs1, hs2]
      have htok : fltOk (some (-10)) (some 10) stop.toRat = true := by
        rw [show ulimOf "current" = 10 from by decide] at ht1 ht2
        simp [fltOk, leOpt, geOpt, ht1, ht2]
      have hm1 := writeMsg_int (k2400TrigCount "TRIG") ":TRIG:COUN" ":TRIG:COUN " _ _
        points (by decide) (by decide) (by decide) hiok
      have hm2 : (k2400SourceFuncMode 1).writeMsg (.a (.as "current")) =
          .ok ":SOUR1:FUNC:MODE CURR" := by decide
      have hm3 : (k2400SubSourceMode 1 "CURR").writeMsg (.a (.as "sweep")) =
          .ok (":SOUR1:" ++ fnScpi "current" ++ ":MODE SWE") := by decide
      have hm4 := writeMsg_flt (k2400SubSourceStart 1 "CURR" k2400IMax) ":SOUR1:CURR:STAR"
        (":SOUR1:" ++ fnScpi "current" ++ ":STAR ") (some (-10)) (some 10) start
        (by decide) (by decide) (by decide) hsok
      have hm5 := writeMsg_flt (k2400SubSourceStop 1 "CURR" k2400IMax) ":SOUR1:CURR:STOP"
        (":SOUR1:" ++ fnScpi "current" ++ ":STOP ") (some (-10)) (some 10) stop
        (by decide) (by decide) (by decide) htok
      have hm6 := writeMsg_int (k2400SubSourcePoints 1) ":SOUR1:POIN" ":SOUR1:POIN " _ _
        points (by decide) (by decide) (by decide) hiok
      simp [k2400SweepSource, k2400SetupTriggering, wopt, wcmd, hv1, hv2,
        hm1, hm2, hm3, hm4, hm5, hm6]
  · intro fn start stop points ch hfn hch hp1 hp2 hs1 hs2 ht1 ht2
    have hiok : intOk (some 1) (some 100000) points = true := intOk_true _ _ _ hp1 hp2
    rcases hfn with rfl | rfl <;> rcases hch with rfl | rfl
    · have hv1 : lsw "voltage" "volt" = true := by decide
      have hv2 : lsw "voltage" "curr" = false := by decide
      have hsok : fltOk (some (-210)) (some 210) start.toRat = true := by
        rw [show ulimOf "voltage" = 210 from by decide] at hs1 hs2
        simp [fltOk, leOpt, geOpt, hs1, hs2]
      have htok : fltOk (some (-210)) (some 210) stop.toRat = true := by
        rw [show ulimOf "voltage" = 210 from by decide] at ht1 ht2
        simp [fltOk, leOpt, geOpt, ht1, ht2]
      have hm1 := writeMsg_int (b2900TrigCount 1 "TRIG" "ALL" "wo") ":TRIG1:ALL:COUN"
        (":TRIG" ++ natStr 1 ++ ":ALL:COUN ") _ _ points
        (by decide) (by decide) (by decide) hiok
      have hm2 : (b2900SourceFuncMode 1).writeMsg (.a (.as "voltage")) =
          .ok ":SOUR1:FUNC:MODE VOLT" := by decide
      have hm2b : (b2900SourceFuncShape 1).writeMsg (.a (.as "dc")) =
          .ok ":SOUR1:FUNC:SHAPE DC" := by decide
      have hm3 : (b2900SubSourceMode 1 "VOLT").writeMsg (.a (.as "sweep")) =
          .ok (":SOUR" ++ natStr 1 ++ ":" ++ fnScpi "voltage" ++ ":MODE SWE") := by decide
      have hm4 := writeMsg_flt (b2900SubSourceStart 1 "VOLT" b2900VMax) ":SOUR1:VOLT:STAR"
        (":SOUR" ++ natStr 1 ++ ":" ++ fnScpi "voltage" ++ ":STAR ") (some (-210)) (some 210)
        start (by decide) (by decide) (by decide) hsok
      have hm5 := writeMsg_flt (b2900SubSourceStop 1 "VOLT" b2900VMax) ":SOUR1:VOLT:STOP"
        (":SOUR" ++ natStr 1 ++ ":" ++ fnScpi "voltage" ++ ":STOP ") (some (-210)) (some 210)
        stop (by decide) (by decide) (by decide) htok
      by_cases hp : points ≤ 2500
      · have hiok2 : intOk (some 1) (some 2500) points = true := intOk_true _ _ _ hp1 hp
        have hm6 := writeMsg_int (b2900SubSourcePoints 1 "VOLT") ":SOUR1:VOLT:POIN"
          (":SOUR" ++ natStr 1 ++ ":" ++ fnScpi "voltage" ++ ":POIN ") _ _ points
          (by decide) (by decide) (by decide) hiok2
        simp [b2900SweepSource, b2900SetupTriggering, wopt, wcmd, hv1, hv2,
          hm1, hm2, hm2b, hm3, hm4, hm5, hm6]
      · have hiok2 : intOk (some 1) (some 2500) points = false := by
          simp only [intOk, leOptI, geOptI]
          simp [hp]
        have hm6 : (b2900SubSourcePoints 1 "VOLT").writeMsg (.a (.ai points)) =
            .error .range :=
          writeMsg_atom_err
            (by decide : (b2900SubSourcePoints 1 "VOLT").write = some ":SOUR1:VOLT:POIN")
            (by decide) (encodeAtom_int_range _ _ _ hiok2)
        simp [b2900SweepSource, b2900SetupTriggering, wopt, wcmd, hv1, hv2,
          hm1, hm2, hm2b, hm3, hm4, hm5, hm6]
    · have hv1 : lsw "voltage" "volt" = true := by decide
      have hv2 : lsw "voltage" "curr" = false := by decide
      have hsok : fltOk (some (-210)) (some 210) start.toRat = true := by
        rw [show ulimOf "voltage" = 210 from by decide] at hs1 hs2
        simp [fltOk, leOpt, geOpt, hs1, hs2]
      have htok : fltOk (some (-210)) (some 210) stop.toRat = true := by
        rw [show ulimOf "voltage" = 210 from by decide] at ht1 ht2
        simp [fltOk, leOpt, geOpt, ht1, ht2]
      have hm1 := writeMsg_int (b2900TrigCount 2 "TRIG" "ALL" "wo") ":TRIG2:ALL:COUN"
        (":TRIG" ++ natStr 2 ++ ":ALL:COUN ") _ _ points
        (by decide) (by decide) (by decide) hiok
      have hm2 : (b2900SourceFuncMode 2).writeMsg (.a (.as "voltage")) =
          .ok ":SOUR2:FUNC:MODE VOLT" := by decide
      have hm2b : (b2900SourceFuncShape 2).writeMsg (.a (.as "dc")) =
          .ok ":SOUR2:FUNC:SHAPE DC" := by decide
      have hm3 : (b2900SubSourceMode 2 "VOLT").writeMsg (.a (.as "sweep")) =
          .ok (":SOUR" ++ natStr 2 ++ ":" ++ fnScpi "voltage" ++ ":MODE SWE") := by decide
      have hm4 := writeMsg_flt (b2900SubSourceStart 2 "VOLT" b2900VMax) ":SOUR2:VOLT:STAR"
        (":SOUR" ++ natStr 2 ++ ":" ++ fnScpi "voltage" ++ ":STAR ") (some (-210)) (some 210)
        start (by decide) (by decide) (by decide) hsok
      have hm5 := writeMsg_flt (b2900SubSourceStop 2 "VOLT" b2900VMax) ":SOUR2:VOLT:STOP"
        (":SOUR" ++ natStr 2 ++ ":" ++ fnScpi "voltage" ++ ":STOP ") (some (-210)) (some 210)
        stop (by decide) (by decide) (by decide) htok
      by_cases hp : points ≤ 2500
      · have hiok2 : intOk (some 1) (some 2500) points = true := intOk_true _ _ _ hp1 hp
        have hm6 := writeMsg_int (b2900SubSourcePoints 2 "VOLT") ":SOUR2:VOLT:POIN"
          (":SOUR" ++ natStr 2 ++ ":" ++ fnScpi "voltage" ++ ":POIN ") _ _ points
          (by decide) (by decide) (by decide) hiok2
        simp [b2900SweepSource, b2900SetupTriggering, wopt, wcmd, hv1, hv2,
          hm1, hm2, hm2b, hm3, hm4, hm5, hm6]
      · have hiok2 : intOk (some 1) (some 2500) points = false := by
          simp only [intOk, leOptI, geOptI]
          simp [hp]
        have hm6 : (b2900SubSourcePoints 2 "VOLT").writeMsg (.a (.ai points)) =
            .error .range :=
          writeMsg_atom_err
            (by decide : (b2900SubSourcePoints 2 "VOLT").write = some ":SOUR2:VOLT:POIN")
            (by decide) (encodeAtom_int_range _ _ _ hiok2)
        simp [b2900SweepSource, b2900SetupTriggering, wopt, wcmd, hv1, hv2,
          hm1, hm2, hm2b, hm3, hm4, hm5, hm6]
    · have hv1 : lsw "current" "volt" = false := by decide
      have hv2 : lsw "current" "curr" = true := by decide
      have hsok : fltOk (some (-10)) (some 10) start.toRat = true := by
        rw [show ulimOf "current" = 10 from by decide] at hs1 hs2
        simp [fltOk, leOpt, geOpt, hs1, hs2]
      have htok : fltOk (some (-10)) (some 10) stop.toRat = true := by
        rw [show ulimOf "current" = 10 from by decide] at ht1 ht2
        simp [fltOk, leOpt, geOpt, ht1, ht2]
      have hm1 := writeMsg_int (b2900TrigCount 1 "TRIG" "ALL" "wo") ":TRIG1:ALL:COUN"
        (":TRIG" ++ natStr 1 ++ ":ALL:COUN ") _ _ points
        (by decide) (by decide) (by decide) hiok
      have hm2 : (b2900SourceFuncMode 1).writeMsg (.a (.as "current")) =
          .ok ":SOUR1:FUNC:MODE CURR" := by decide
      have hm2b : (b2900SourceFuncShape 1).writeMsg (.a (.as "dc")) =
          .ok ":SOUR1:FUNC:SHAPE DC" := by decide
      have hm3 : (b2900SubSourceMode 1 "CURR").writeMsg (.a (.as "sweep")) =
          .ok (":SOUR" ++ natStr 1 ++ ":" ++ fnScpi "current" ++ ":MODE SWE") := by decide
      have hm4 := writeMsg_flt (b2900SubSourceStart 1 "CURR" b2900IMax) ":SOUR1:CURR:STAR"
        (":SOUR" ++ natStr 1 ++ ":" ++ fnScpi "current" ++ ":STAR ") (some (-10)) (some 10)
        start (by decide) (by decide) (by decide) hsok
      have hm5 := writeMsg_flt (b2900SubSourceStop 1 "CURR" b2900IMax) ":SOUR1:CURR:STOP"
        (":SOUR" ++ natStr 1 ++ ":" ++ fnScpi "current" ++ ":STOP ") (some (-10)) (some 10)
        stop (by decide) (by decide) (by decide) htok
      by_cases hp : points ≤ 2500
      · have hiok2 : intOk (some 1) (some 2500) points = true := intOk_true _ _ _ hp1 hp
        have hm6 := writeMsg_int (b2900SubSourcePoints 1 "CURR") ":SOUR1:CURR:POIN"
          (":SOUR" ++ natStr 1 ++ ":" ++ fnScpi "current" ++ ":POIN ") _ _ points
          (by decide) (by decide) (by decide) hiok2
        simp [b2900SweepSource, b2900SetupTriggering, wopt, wcmd, hv1, hv2,
          hm1, hm2, hm2b, hm3, hm4, hm5, hm6]
      · have hiok2 : intOk (some 1) (some 2500) points = false := by
          simp only [intOk, leOptI, geOptI]
          simp [hp]
        have hm6 : (b2900SubSourcePoints 1 "CURR").writeMsg (.a (.ai points)) =
            .error .range :=
          writeMsg_atom_err
            (by decide : (b2900SubSourcePoints 1 "CURR").write = some ":SOUR1:CURR:POIN")
            (by decide) (encodeAtom_int_range _ _ _ hiok2)
        simp [b2900SweepSource, b2900SetupTriggering, wopt, wcmd, hv1, hv2,
          hm1, hm2, hm2b, hm3, hm4, hm5, hm6]
    · have hv1 : lsw "current" "volt" = false := by decide
      have hv2 : lsw "current" "curr" = true := by decide
      have hsok : fltOk (some (-10)) (some 10) start.toRat = true := by
        rw [show ulimOf "current" = 10 from by decide] at hs1 hs2
        simp [fltOk, leOpt, geOpt, hs1, hs2]
      have htok : fltOk (some (-10)) (some 10) stop.toRat = true := by
        rw [show ulimOf "current" = 10 from by decide] at ht1 ht2
        simp [fltOk, leOpt, geOpt, ht1, ht2]
      have hm1 := writeMsg_int (b2900TrigCount 2 "TRIG" "ALL" "wo") ":TRIG2:ALL:COUN"
        (":TRIG" ++ natStr 2 ++ ":ALL:COUN ") _ _ points
        (by decide) (by decide) (by decide) hiok
      have hm2 : (b2900SourceFuncMode 2).writeMsg (.a (.as "current")) =
          .ok ":SOUR2:FUNC:MODE CURR" := by decide
      have hm2b : (b2900SourceFuncShape 2).writeMsg (.a (.as "dc")) =
          .ok ":SOUR2:FUNC:SHAPE DC" := by decide
      have hm3 : (b2900SubSourceMode 2 "CURR").writeMsg (.a (.as "sweep")) =
          .ok (":SOUR" ++ natStr 2 ++ ":" ++ fnScpi "current" ++ ":MODE SWE") := by decide
      have hm4 := writeMsg_flt (b2900SubSourceStart 2 "CURR" b2900IMax) ":SOUR2:CURR:STAR"
        (":SOUR" ++ natStr 2 ++ ":" ++ fnScpi "current" ++ ":STAR ") (some (-10)) (some 10)
        start (by decide) (by decide) (by decide) hsok
      have hm5 := writeMsg_flt (b2900SubSourceStop 2 "CURR" b2900IMax) ":SOUR2:CURR:STOP"
        (":SOUR" ++ natStr 2 ++ ":" ++ fnScpi "current" ++ ":STOP ") (some (-10)) (some 10)
        stop (by decide) (by decide) (by decide) htok
      by_cases hp : points ≤ 2500
      · have hiok2 : intOk (some 1) (some 2500) points = true := intOk_true _ _ _ hp1 hp
        have hm6 := writeMsg_int (b2900SubSourcePoints 2 "CURR") ":SOUR2:CURR:POIN"
          (":SOUR" ++ natStr 2 ++ ":" ++ fnScpi "current" ++ ":POIN ") _ _ points
          (by decide) (by decide) (by decide) hiok2
        simp [b2900SweepSource, b2900SetupTriggering, wopt, wcmd, hv1, hv2,
          hm1, hm2, hm2b, hm3, hm4, hm5, hm6]
      · have hiok2 : intOk (some 1) (some 2500) points = false := by
          simp only [intOk, leOptI, geOptI]
          simp [hp]
        have hm6 : (b2900SubSourcePoints 2 "CURR").writeMsg (.a (.ai points)) =
            .error .range :=
          writeMsg_atom_err
            (by decide : (b2900SubSourcePoints 2 "CURR").write = some ":SOUR2:CURR:POIN")
            (by decide) (encodeAtom_int_range _ _ _ hiok2)
        simp [b2900SweepSource, b2900SetupTriggering, wopt, wcmd, hv1, hv2,
          hm1, hm2, hm2b, hm3, hm4, hm5, hm6]

/-- C1 witness: `setup.sweep_source('voltage', -0.1, 0.1, 101)` on channel 1
leaves the trigger count at 101 and the source mode at sweep on both
devices. -/
theorem C1_sweep_source_count_and_mode_witness :
    ((k2400SweepSource "voltage" ⟨-1, 1⟩ ⟨1, 1⟩ 101 1).2 = none
      ∧ (":TRIG:COUN " ++ intStr 101) ∈ (k2400SweepSource "voltage" ⟨-1, 1⟩ ⟨1, 1⟩ 101 1).1
      ∧ (":SOUR1:" ++ fnScpi "voltage" ++ ":MODE SWE")
          ∈ (k2400SweepSource "voltage" ⟨-1, 1⟩ ⟨1, 1⟩ 101 1).1
      ∧ ((":SOUR1:" ++ fnScpi "voltage" ++ ":STAR ") ++ printD ⟨-1, 1⟩)
          ∈ (k2400SweepSource "voltage" ⟨-1, 1⟩ ⟨1, 1⟩ 101 1).1
      ∧ ((":SOUR1:" ++ fnScpi "voltage" ++ ":STOP ") ++ printD ⟨1, 1⟩)
          ∈ (k2400SweepSource "voltage" ⟨-1, 1⟩ ⟨1, 1⟩ 101 1).1)
    ∧ (((":TRIG" ++ natStr 1 ++ ":ALL:COUN ") ++ intStr 101)
          ∈ (b2900SweepSource "voltage" ⟨-1, 1⟩ ⟨1, 1⟩ 101 1).1
      ∧ (":SOUR" ++ natStr 1 ++ ":" ++ fnScpi "voltage" ++ ":MODE SWE")
          ∈ (b2900SweepSource "voltage" ⟨-1, 1⟩ ⟨1, 1⟩ 101 1).1
      ∧ ((":SOUR" ++ natStr 1 ++ ":" ++ fnScpi "voltage" ++ ":STAR ") ++ printD ⟨-1, 1⟩)
          ∈ (b2900SweepSource "voltage" ⟨-1, 1⟩ ⟨1, 1⟩ 101 1).1
      ∧ ((":SOUR" ++ natStr 1 ++ ":" ++ fnScpi "voltage" ++ ":STOP ") ++ printD ⟨1, 1⟩)
          ∈ (b2900SweepSource "voltage" ⟨-1, 1⟩ ⟨1, 1⟩ 101 1).1) :=
  ⟨C1_sweep_source_count_and_mode.1 "voltage" ⟨-1, 1⟩ ⟨1, 1⟩ 101 (Or.inl rfl)
      (by decide) (by decide) (by decide) (by decide) (by decide) (by decide),
   C1_sweep_source_count_and_mode.2 "voltage" ⟨-1, 1⟩ ⟨1, 1⟩ 101 1 (Or.inl rfl)
      (Or.inl rfl) (by decide) (by decide) (by decide) (by decide) (by decide) (by decide)⟩
